import Mathlib

/-!
# roadrunner: display names, global search, chat operations

A shallow embedding of `display.go`, `search.go` and `chats.go` of
`internal/beeperapi` and of the chat search and global search commands of
`internal/cmd` of the roadrunner skill.

* Go strings are `String`, Go `int`/`int64` are `Int`. The only arithmetic is
  the timeout product of the commands, which wraps around as `int64` does;
  everything else is comparison with constants and copying.
* Go slices are `List`s. A `for _, x := range xs` loop that appends to a result
  slice is a left fold that appends one element per iteration.
* A Go `(T, error)` return is a pair `T × Option ε`, `none` standing for `nil`.
* The gateway (the SDK client and the message service) is a set of state
  transformers over an arbitrary gateway state `σ`; every gateway call made by
  an operation is recorded, in order, in the returned call log.
* `time.Time.Format(time.RFC3339)` is a function argument `rfc3339`.
* A nil slice and an empty non-nil slice are both `[]`. Contexts, deadlines
  and `defer cancel()` have no part in the values returned and are left out:
  `contextWithTimeout` (client.go) is not among the sources.
-/

namespace Roadrunner

/-! ## Collaborator (SDK) types: the fields the source reads -/

/-- Participant of a chat (`shared.User`): the fields read by `displayNameForChat`. -/
structure User where
  ID : String := ""
  FullName : String := ""
  Username : String := ""
  IsSelf : Bool := false
deriving DecidableEq, Repr

/-- Go `time.Time`, as seconds and nanoseconds since the zero instant. -/
structure Time where
  sec : Int := 0
  nsec : Nat := 0
deriving DecidableEq, Repr

/-- Go `time.Time.IsZero`. -/
def Time.IsZero (t : Time) : Bool := t.sec == 0 && t.nsec == 0

/-- Participant sub-list of a chat (`chat.Participants`). -/
structure Participants where
  Items : List User := []
  Total : Int := 0
  HasMore : Bool := false
deriving DecidableEq, Repr

/-- Chat as returned by the collaborator API: the fields read by the source
(`ChatType` is the Go field `Type`, a Lean keyword; `PreviewValid` is
`chat.JSON.Preview.Valid()` and `PreviewText` is `chat.Preview.Text`). -/
structure Chat where
  ID : String := ""
  Title : String := ""
  ChatType : String := ""
  Network : String := ""
  AccountID : String := ""
  UnreadCount : Int := 0
  IsArchived : Bool := false
  IsMuted : Bool := false
  IsPinned : Bool := false
  LastActivity : Time := {}
  Participants : Participants := {}
  LastReadMessageSortKey : String := ""
  LocalChatID : String := ""
  PreviewValid : Bool := false
  PreviewText : String := ""
deriving DecidableEq, Repr

/-- Message as returned by the collaborator API (`shared.Message`). -/
structure Message where
  ID : String := ""
  ChatID : String := ""
  SenderID : String := ""
  SenderName : String := ""
  Text : String := ""
  Timestamp : Time := {}
deriving DecidableEq, Repr

/-! ## display.go -/

/-- The `for _, p := range participants` loop of `displayNameForChat`: a self
participant is skipped (`continue`), the first non-empty of `FullName`,
`Username`, `ID` is returned, and a participant that yields nothing lets the
loop go on to the next one; after the loop the result is `""`. -/
def displayNameLoop : List User → String
  | [] => ""
  | p :: rest =>
    if p.IsSelf then displayNameLoop rest
    else if p.FullName ≠ "" then p.FullName
    else if p.Username ≠ "" then p.Username
    else if p.ID ≠ "" then p.ID
    else displayNameLoop rest

/-- Embedding of `displayNameForChat(chatType, title, participants)`. -/
def displayNameForChat (chatType : String) (_title : String) (participants : List User) : String :=
  if chatType ≠ "single" then ""
  else displayNameLoop participants

/-! ## search.go: types -/

/-- SearchParams configures global search behavior. -/
structure SearchParams where
  Query : String := ""
  MessagesCursor : String := ""
  MessagesDirection : String := ""
  MessagesLimit : Int := 0
deriving DecidableEq, Repr

/-- SearchChat represents a chat in search results. -/
structure SearchChat where
  ID : String := ""
  Title : String := ""
  DisplayName : String := ""
  ChatType : String := ""
  Network : String := ""
  AccountID : String := ""
  UnreadCount : Int := 0
deriving DecidableEq, Repr

/-- Modelled from the spec: the declaration of `MessageItem` (messages.go) is not
among the sources; the fields are the six of the spec's Message entity, which
are exactly the ones `Client.Search` assigns. -/
structure MessageItem where
  ID : String := ""
  ChatID : String := ""
  SenderID : String := ""
  SenderName : String := ""
  Text : String := ""
  Timestamp : String := ""
deriving DecidableEq, Repr

/-- SearchMessages represents message results from global search. -/
structure SearchMessages where
  Items : List MessageItem := []
  HasMore : Bool := false
  OldestCursor : String := ""
  NewestCursor : String := ""
deriving DecidableEq, Repr

/-- SearchResult is the response from global search. -/
structure SearchResult where
  Chats : List SearchChat := []
  InGroups : List SearchChat := []
  Messages : SearchMessages := {}
deriving DecidableEq, Repr

/-- Modelled from the spec: the declaration of `MessageSearchParams` (messages.go)
is not among the sources; the fields are the controls of the spec's
`messages.search(query?, cursor?, direction?, limit?)`, the four that
`Client.Search` sets. -/
structure MessageSearchParams where
  Query : String := ""
  Cursor : String := ""
  Direction : String := ""
  Limit : Int := 0
deriving DecidableEq, Repr

/-- Modelled from the spec: the declaration of `MessageSearchResult` (messages.go)
is not among the sources; it is the spec's `Page<Message>`, and the Go
conversion `SearchMessages(msgs)` in `Client.Search` forces it to have the
same fields as `SearchMessages`. -/
structure MessageSearchResult where
  Items : List MessageItem := []
  HasMore : Bool := false
  OldestCursor : String := ""
  NewestCursor : String := ""
deriving DecidableEq, Repr

/-- The Go conversion `SearchMessages(msgs)`: a field-by-field copy. -/
def SearchMessages.ofMessageSearchResult (msgs : MessageSearchResult) : SearchMessages :=
  { Items := msgs.Items, HasMore := msgs.HasMore,
    OldestCursor := msgs.OldestCursor, NewestCursor := msgs.NewestCursor }

/-- Request of the combined search call (`beeperdesktopapi.SearchParams`). -/
structure SdkSearchParams where
  Query : String := ""
deriving DecidableEq, Repr

/-- Inline message bucket of the combined search response. -/
structure SdkSearchMessages where
  Items : List Message := []
  HasMore : Bool := false
  OldestCursor : String := ""
  NewestCursor : String := ""
deriving DecidableEq, Repr

/-- The three buckets of the combined search response (`resp.Results`). -/
structure SdkSearchResults where
  Chats : List Chat := []
  InGroups : List Chat := []
  Messages : SdkSearchMessages := {}
deriving DecidableEq, Repr

/-- Response of the combined search call. -/
structure SdkSearchResponse where
  Results : SdkSearchResults := {}
deriving DecidableEq, Repr

/-! ## chats.go: types -/

/-- ChatListParams configures chat list queries. -/
structure ChatListParams where
  AccountIDs : List String := []
  Cursor : String := ""
  Direction : String := ""
deriving DecidableEq, Repr

/-- ChatListItem represents a chat in list output. -/
structure ChatListItem where
  ID : String := ""
  Title : String := ""
  DisplayName : String := ""
  AccountID : String := ""
  LastActivity : String := ""
  Preview : String := ""
deriving DecidableEq, Repr

/-- ChatListResult is the list response with pagination info. -/
structure ChatListResult where
  Items : List ChatListItem := []
  HasMore : Bool := false
  OldestCursor : String := ""
  NewestCursor : String := ""
deriving DecidableEq, Repr

/-- ChatSearchParams configures chat search queries (`ChatType` is the Go
field `Type`). -/
structure ChatSearchParams where
  Query : String := ""
  Inbox : String := ""
  UnreadOnly : Bool := false
  ChatType : String := ""
  Scope : String := ""
  Limit : Int := 0
  Cursor : String := ""
  Direction : String := ""
deriving DecidableEq, Repr

/-- ChatSearchItem represents a chat in search output. -/
structure ChatSearchItem where
  ID : String := ""
  Title : String := ""
  DisplayName : String := ""
  ChatType : String := ""
  Network : String := ""
  UnreadCount : Int := 0
  IsArchived : Bool := false
  IsMuted : Bool := false
deriving DecidableEq, Repr

/-- ChatSearchResult is the search response with pagination info. -/
structure ChatSearchResult where
  Items : List ChatSearchItem := []
  HasMore : Bool := false
  OldestCursor : String := ""
  NewestCursor : String := ""
deriving DecidableEq, Repr

/-- ChatDetail represents a chat detail response. -/
structure ChatDetail where
  ID : String := ""
  Title : String := ""
  DisplayName : String := ""
  AccountID : String := ""
  Network : String := ""
  ChatType : String := ""
  UnreadCount : Int := 0
  IsArchived : Bool := false
  IsMuted : Bool := false
  IsPinned : Bool := false
  LastActivity : String := ""
  LastReadMessageSortKey : String := ""
  LocalChatID : String := ""
  Preview : String := ""
  ParticipantsTotal : Int := 0
  ParticipantsReturned : Int := 0
  ParticipantsHasMore : Bool := false
deriving DecidableEq, Repr

/-! ## Collaborator (SDK) request types for chats

An optional request field (`param.Opt`, or a string-constant type whose zero
value is left out of the request) is an `Option`: `none` is "absent from the
outbound request". The SDK's string-constant types are closed enumerations of
the constants the source names. -/

/-- The constants `ChatListParamsDirectionBefore` and `...After`. -/
inductive ChatListParamsDirection where
  | Before
  | After
deriving DecidableEq, Repr

/-- The constants `ChatSearchParamsDirectionBefore` and `...After`. -/
inductive ChatSearchParamsDirection where
  | Before
  | After
deriving DecidableEq, Repr

/-- The constants `ChatSearchParamsInboxPrimary`, `...LowPriority`, `...Archive`. -/
inductive ChatSearchParamsInbox where
  | Primary
  | LowPriority
  | Archive
deriving DecidableEq, Repr

/-- The constants `ChatSearchParamsTypeSingle`, `...Group`, `...Any`. -/
inductive ChatSearchParamsType where
  | Single
  | Group
  | Any
deriving DecidableEq, Repr

/-- The constants `ChatSearchParamsScopeTitles` and `...Participants`. -/
inductive ChatSearchParamsScope where
  | Titles
  | Participants
deriving DecidableEq, Repr

/-- Request of `SDK.Chats.List` (`beeperdesktopapi.ChatListParams`). -/
structure SdkChatListParams where
  AccountIDs : List String := []
  Cursor : Option String := none
  Direction : Option ChatListParamsDirection := none
deriving DecidableEq, Repr

/-- Request of `SDK.Chats.Search` (`beeperdesktopapi.ChatSearchParams`). -/
structure SdkChatSearchParams where
  Query : Option String := none
  UnreadOnly : Option Bool := none
  Limit : Option Int := none
  Cursor : Option String := none
  Direction : Option ChatSearchParamsDirection := none
  Inbox : Option ChatSearchParamsInbox := none
  ChatType : Option ChatSearchParamsType := none
  Scope : Option ChatSearchParamsScope := none
deriving DecidableEq, Repr

/-- Request of `SDK.Chats.Archive` (`beeperdesktopapi.ChatArchiveParams`). -/
structure SdkChatArchiveParams where
  Archived : Option Bool := none
deriving DecidableEq, Repr

/-- A page of chats as returned by `SDK.Chats.List` and `SDK.Chats.Search`. -/
structure SdkChatPage where
  Items : List Chat := []
  HasMore : Bool := false
  OldestCursor : String := ""
  NewestCursor : String := ""
deriving DecidableEq, Repr

/-! ## The gateway and the client -/

/-- One call that crossed the gateway boundary, with the request it carried. -/
inductive GatewayCall where
  | search (req : SdkSearchParams)
  | messagesSearch (req : MessageSearchParams)
  | chatsList (req : SdkChatListParams)
  | chatsSearch (req : SdkChatSearchParams)
  | chatsGet (chatID : String)
  | chatsArchive (chatID : String) (req : SdkChatArchiveParams)
deriving DecidableEq, Repr

/-- The part of `Client` that `Client.Search` uses: `c.SDK.Search`, the combined
search call, and `c.Messages().Search`, the message-search call (its body,
messages.go, is not among the sources and is a parameter here). Each is a
transformer of the gateway state `σ` that either fails with an `ε` or returns
a response. -/
structure Client (σ ε : Type) where
  SDKSearch : SdkSearchParams → σ → Except ε SdkSearchResponse × σ
  MessagesSearch : MessageSearchParams → σ → Except ε MessageSearchResult × σ

/-- What running an operation yields: the Go return pair `(result, err)`, the
gateway calls issued, in order, and the gateway state afterwards. -/
structure Run (σ α ε : Type) where
  result : α
  err : Option ε
  calls : List GatewayCall
  state : σ

/-- ChatsService handles chat operations: the four calls of
`s.client.SDK.Chats` it uses, as transformers of the gateway state. -/
structure ChatsService (σ ε : Type) where
  SDKChatsList : SdkChatListParams → σ → Except ε SdkChatPage × σ
  SDKChatsSearch : SdkChatSearchParams → σ → Except ε SdkChatPage × σ
  SDKChatsGet : String → σ → Except ε Chat × σ
  SDKChatsArchive : String → SdkChatArchiveParams → σ → Option ε × σ

/-! ## search.go: `Client.Search` -/

/-- Body of the `// Map chats` and `// Map in_groups` loops: the `SearchChat`
literal appended for one chat. -/
def searchChatOf (chat : Chat) : SearchChat :=
  let displayName := displayNameForChat chat.ChatType chat.Title chat.Participants.Items
  { ID := chat.ID
    Title := chat.Title
    DisplayName := displayName
    ChatType := chat.ChatType
    Network := chat.Network
    AccountID := chat.AccountID
    UnreadCount := chat.UnreadCount }

/-- Body of the `// Map messages` loop: the `MessageItem` appended for one
message; `rfc3339 t` stands for `t.Format(time.RFC3339)`. -/
def messageItemOf (rfc3339 : Time → String) (msg : Message) : MessageItem :=
  let item : MessageItem :=
    { ID := msg.ID, ChatID := msg.ChatID, SenderID := msg.SenderID, Text := msg.Text }
  let item : MessageItem :=
    if msg.SenderName ≠ "" then { item with SenderName := msg.SenderName }
    else { item with SenderName := msg.SenderID }
  if !msg.Timestamp.IsZero then { item with Timestamp := rfc3339 msg.Timestamp }
  else item

/-- The `for ... range` loop appending `body x` to a slice for each `x`. -/
def appendEach {α β : Type} (body : α → β) (acc : List β) (xs : List α) : List β :=
  xs.foldl (fun acc x => acc ++ [body x]) acc

/-- Embedding of `(c *Client) Search(ctx, params)`. -/
def Client.Search {σ ε : Type} (c : Client σ ε) (rfc3339 : Time → String)
    (params : SearchParams) (s : σ) : Run σ SearchResult ε :=
  let sdkParams : SdkSearchParams := { Query := params.Query }
  match c.SDKSearch sdkParams s with
  | (.error err, s1) =>
    { result := {}, err := some err, calls := [.search sdkParams], state := s1 }
  | (.ok resp, s1) =>
    let result : SearchResult :=
      { Chats := []
        InGroups := []
        Messages :=
          { Items := []
            HasMore := resp.Results.Messages.HasMore
            OldestCursor := resp.Results.Messages.OldestCursor
            NewestCursor := resp.Results.Messages.NewestCursor } }
    -- Map chats
    let result := { result with Chats := appendEach searchChatOf result.Chats resp.Results.Chats }
    -- Map in_groups
    let result :=
      { result with InGroups := appendEach searchChatOf result.InGroups resp.Results.InGroups }
    -- Map messages
    let result :=
      { result with
        Messages :=
          { result.Messages with
            Items := appendEach (messageItemOf rfc3339) result.Messages.Items
              resp.Results.Messages.Items } }
    let useMessagePaging : Bool :=
      params.MessagesCursor != "" || params.MessagesDirection != "" || params.MessagesLimit > 0
    if useMessagePaging then
      let limit := if params.MessagesLimit ≤ 0 then 20 else params.MessagesLimit
      let req : MessageSearchParams :=
        { Query := params.Query
          Cursor := params.MessagesCursor
          Direction := params.MessagesDirection
          Limit := limit }
      match c.MessagesSearch req s1 with
      | (.error err, s2) =>
        { result := {}, err := some err,
          calls := [.search sdkParams, .messagesSearch req], state := s2 }
      | (.ok msgs, s2) =>
        { result := { result with Messages := SearchMessages.ofMessageSearchResult msgs },
          err := none, calls := [.search sdkParams, .messagesSearch req], state := s2 }
    else
      { result := result, err := none, calls := [.search sdkParams], state := s1 }

/-! ## chats.go: `ChatsService` -/

/-- The request built at the top of `ChatsService.List`: `sdkParams` after the
two `if`s and the `switch params.Direction`. -/
def listSdkParams (params : ChatListParams) : SdkChatListParams :=
  let sdkParams : SdkChatListParams := {}
  let sdkParams :=
    if params.AccountIDs.length > 0 then { sdkParams with AccountIDs := params.AccountIDs }
    else sdkParams
  let sdkParams :=
    if params.Cursor ≠ "" then { sdkParams with Cursor := some params.Cursor } else sdkParams
  let sdkParams :=
    if params.Direction = "before" then
      { sdkParams with Direction := some ChatListParamsDirection.Before }
    else if params.Direction = "after" then
      { sdkParams with Direction := some ChatListParamsDirection.After }
    else sdkParams
  sdkParams

/-- Body of the loop of `ChatsService.List`: the `ChatListItem` appended for
one chat. -/
def chatListItemOf (rfc3339 : Time → String) (chat : Chat) : ChatListItem :=
  let item : ChatListItem := { ID := chat.ID, Title := chat.Title, AccountID := chat.AccountID }
  let item : ChatListItem :=
    { item with
      DisplayName := displayNameForChat chat.ChatType chat.Title chat.Participants.Items }
  let item : ChatListItem :=
    if !chat.LastActivity.IsZero then { item with LastActivity := rfc3339 chat.LastActivity }
    else item
  let item : ChatListItem :=
    if chat.PreviewValid then { item with Preview := chat.PreviewText } else item
  item

/-- Embedding of `(s *ChatsService) List(ctx, params)`. -/
def ChatsService.List {σ ε : Type} (svc : ChatsService σ ε) (rfc3339 : Time → String)
    (params : ChatListParams) (s : σ) : Run σ ChatListResult ε :=
  let sdkParams := listSdkParams params
  match svc.SDKChatsList sdkParams s with
  | (.error err, s1) =>
    { result := {}, err := some err, calls := [.chatsList sdkParams], state := s1 }
  | (.ok page, s1) =>
    let result : ChatListResult :=
      { Items := []
        HasMore := page.HasMore
        OldestCursor := page.OldestCursor
        NewestCursor := page.NewestCursor }
    let result :=
      { result with Items := appendEach (chatListItemOf rfc3339) result.Items page.Items }
    { result := result, err := none, calls := [.chatsList sdkParams], state := s1 }

/-- The request built at the top of `ChatsService.Search`: `sdkParams` after
the four `if`s and the four `switch`es. -/
def searchSdkParams (params : ChatSearchParams) : SdkChatSearchParams :=
  let sdkParams : SdkChatSearchParams := {}
  let sdkParams :=
    if params.Query ≠ "" then { sdkParams with Query := some params.Query } else sdkParams
  let sdkParams :=
    if params.UnreadOnly then { sdkParams with UnreadOnly := some true } else sdkParams
  let sdkParams :=
    if params.Limit > 0 then { sdkParams with Limit := some params.Limit } else sdkParams
  let sdkParams :=
    if params.Cursor ≠ "" then { sdkParams with Cursor := some params.Cursor } else sdkParams
  let sdkParams :=
    if params.Direction = "before" then
      { sdkParams with Direction := some ChatSearchParamsDirection.Before }
    else if params.Direction = "after" then
      { sdkParams with Direction := some ChatSearchParamsDirection.After }
    else sdkParams
  let sdkParams :=
    if params.Inbox = "primary" then
      { sdkParams with Inbox := some ChatSearchParamsInbox.Primary }
    else if params.Inbox = "low-priority" then
      { sdkParams with Inbox := some ChatSearchParamsInbox.LowPriority }
    else if params.Inbox = "archive" then
      { sdkParams with Inbox := some ChatSearchParamsInbox.Archive }
    else sdkParams
  let sdkParams :=
    if params.ChatType = "direct" then
      { sdkParams with ChatType := some ChatSearchParamsType.Single }
    else if params.ChatType = "group" then
      { sdkParams with ChatType := some ChatSearchParamsType.Group }
    else if params.ChatType = "any" then
      { sdkParams with ChatType := some ChatSearchParamsType.Any }
    else sdkParams
  let sdkParams :=
    if params.Scope = "titles" then
      { sdkParams with Scope := some ChatSearchParamsScope.Titles }
    else if params.Scope = "participants" then
      { sdkParams with Scope := some ChatSearchParamsScope.Participants }
    else sdkParams
  sdkParams

/-- Body of the loop of `ChatsService.Search`: the `ChatSearchItem` appended
for one chat. -/
def chatSearchItemOf (chat : Chat) : ChatSearchItem :=
  let displayName := displayNameForChat chat.ChatType chat.Title chat.Participants.Items
  { ID := chat.ID
    Title := chat.Title
    DisplayName := displayName
    ChatType := chat.ChatType
    Network := chat.Network
    UnreadCount := chat.UnreadCount
    IsArchived := chat.IsArchived
    IsMuted := chat.IsMuted }

/-- Embedding of `(s *ChatsService) Search(ctx, params)`. -/
def ChatsService.Search {σ ε : Type} (svc : ChatsService σ ε)
    (params : ChatSearchParams) (s : σ) : Run σ ChatSearchResult ε :=
  let sdkParams := searchSdkParams params
  match svc.SDKChatsSearch sdkParams s with
  | (.error err, s1) =>
    { result := {}, err := some err, calls := [.chatsSearch sdkParams], state := s1 }
  | (.ok page, s1) =>
    let result : ChatSearchResult :=
      { Items := []
        HasMore := page.HasMore
        OldestCursor := page.OldestCursor
        NewestCursor := page.NewestCursor }
    let result := { result with Items := appendEach chatSearchItemOf result.Items page.Items }
    { result := result, err := none, calls := [.chatsSearch sdkParams], state := s1 }

/-- Embedding of `(s *ChatsService) Get(ctx, chatID)`. -/
def ChatsService.Get {σ ε : Type} (svc : ChatsService σ ε) (rfc3339 : Time → String)
    (chatID : String) (s : σ) : Run σ ChatDetail ε :=
  match svc.SDKChatsGet chatID s with
  | (.error err, s1) =>
    { result := {}, err := some err, calls := [.chatsGet chatID], state := s1 }
  | (.ok chat, s1) =>
    let detail : ChatDetail :=
      { ID := chat.ID
        Title := chat.Title
        AccountID := chat.AccountID
        Network := chat.Network
        ChatType := chat.ChatType
        UnreadCount := chat.UnreadCount
        IsArchived := chat.IsArchived
        IsMuted := chat.IsMuted
        IsPinned := chat.IsPinned
        LastReadMessageSortKey := chat.LastReadMessageSortKey
        LocalChatID := chat.LocalChatID
        ParticipantsTotal := chat.Participants.Total
        ParticipantsReturned := (chat.Participants.Items.length : Int)
        ParticipantsHasMore := chat.Participants.HasMore }
    let detail : ChatDetail :=
      if !chat.LastActivity.IsZero then
        { detail with LastActivity := rfc3339 chat.LastActivity }
      else detail
    let detail : ChatDetail :=
      { detail with
        DisplayName := displayNameForChat chat.ChatType chat.Title chat.Participants.Items }
    { result := detail, err := none, calls := [.chatsGet chatID], state := s1 }

/-- Embedding of `(s *ChatsService) Archive(ctx, chatID, archived)`; the Go
function returns the error alone, so the result is `Unit`. -/
def ChatsService.Archive {σ ε : Type} (svc : ChatsService σ ε)
    (chatID : String) (archived : Bool) (s : σ) : Run σ Unit ε :=
  let sdkParams : SdkChatArchiveParams := { Archived := some archived }
  match svc.SDKChatsArchive chatID sdkParams s with
  | (err, s1) =>
    { result := (), err := err, calls := [.chatsArchive chatID sdkParams], state := s1 }

/-! ## cmd/chats.go: `ChatsSearchCmd` -/

/-- RootFlags contains global flags available to all commands: the two that
the chat commands read. -/
structure RootFlags where
  Timeout : Int := 30
  BaseURL : String := "http://localhost:23373"
deriving DecidableEq, Repr

/-- ChatsSearchCmd searches for chats (`ChatType` is the Go field `Type`). -/
structure ChatsSearchCmd where
  Query : String := ""
  Inbox : String := ""
  UnreadOnly : Bool := false
  ChatType : String := ""
  Scope : String := ""
  Limit : Int := 50
  Cursor : String := ""
  Direction : String := ""
deriving DecidableEq, Repr

/-- Modelled from the spec: `errfmt.UsageError` (package errfmt) is not among the
sources. A command error is either the spec's UsageError, kept as the format
string and argument it was built from, or an error received from a
collaborator and returned unchanged. -/
inductive CmdError (ε : Type) where
  | UsageError (format : String) (arg : Int)
  | collaborator (e : ε)
deriving DecidableEq, Repr

/-- What a command does besides returning: look up the token, construct the
client, issue a gateway call. -/
inductive CmdEvent where
  | getToken
  | newClient (token : String) (baseURL : String) (timeout : Int)
  | gateway (call : GatewayCall)
deriving DecidableEq, Repr

/-- The `*Client` a command obtains from `beeperapi.NewClient`: global search
and `client.Chats()`. -/
structure CmdClient (σ ε : Type) where
  Client : Client σ ε
  Chats : ChatsService σ ε

/-- Collaborators of a command: `config.GetToken`, `beeperapi.NewClient` and the
output section at the end of `ChatsSearchCmd.Run` (JSON, plain or table
rendering), of which only the returned error is kept. -/
structure CmdEnv (σ ε : Type) where
  GetToken : σ → Except ε String × σ
  NewClient : String → String → Int → Except ε (CmdClient σ ε)
  RenderChatSearch : ChatSearchResult → Option ε

/-- What running a command yields: the returned error, the events in order and
the state afterwards. -/
structure CmdRun (σ ε : Type) where
  err : Option (CmdError ε)
  events : List CmdEvent
  state : σ

/-- Two's-complement wrap-around of a Go `int64` product. -/
def wrapInt64 (x : Int) : Int :=
  (x + 9223372036854775808) % 18446744073709551616 - 9223372036854775808

/-- The `time.Duration(flags.Timeout) * time.Second` of the commands, in
nanoseconds. -/
def timeoutOf (flags : RootFlags) : Int := wrapInt64 (flags.Timeout * 1000000000)

/-- Embedding of `(c *ChatsSearchCmd) Run(ctx, flags)`. -/
def ChatsSearchCmd.Run {σ ε : Type} (c : ChatsSearchCmd) (env : CmdEnv σ ε)
    (flags : RootFlags) (s : σ) : CmdRun σ ε :=
  if c.Limit < 1 ∨ c.Limit > 200 then
    { err := some (.UsageError "invalid --limit %d (expected 1-200)" c.Limit)
      events := [], state := s }
  else
    match env.GetToken s with
    | (.error err, s1) =>
      { err := some (.collaborator err), events := [.getToken], state := s1 }
    | (.ok token, s1) =>
      let timeout := timeoutOf flags
      match env.NewClient token flags.BaseURL timeout with
      | .error err =>
        { err := some (.collaborator err)
          events := [.getToken, .newClient token flags.BaseURL timeout], state := s1 }
      | .ok client =>
        let r := client.Chats.Search
          { Query := c.Query
            Inbox := c.Inbox
            UnreadOnly := c.UnreadOnly
            ChatType := c.ChatType
            Scope := c.Scope
            Limit := c.Limit
            Cursor := c.Cursor
            Direction := c.Direction } s1
        let events : List CmdEvent :=
          [.getToken, .newClient token flags.BaseURL timeout] ++ r.calls.map CmdEvent.gateway
        match r.err with
        | some err => { err := some (.collaborator err), events := events, state := r.state }
        | none =>
          { err := (env.RenderChatSearch r.result).map CmdError.collaborator
            events := events, state := r.state }

/-! ## cmd/search.go: `SearchCmd` -/

/-- SearchCmd performs a global search. -/
structure SearchCmd where
  Query : String := ""
  MessagesCursor : String := ""
  MessagesDirection : String := ""
  MessagesLimit : Int := 0
deriving DecidableEq, Repr

/-- Embedding of `(c *SearchCmd) Run(ctx, flags)`; `render` is the output section
at its end (JSON, plain or table rendering), of which only the returned
error is kept. -/
def SearchCmd.Run {σ ε : Type} (c : SearchCmd) (env : CmdEnv σ ε) (rfc3339 : Time → String)
    (render : SearchResult → Option ε) (flags : RootFlags) (s : σ) : CmdRun σ ε :=
  match env.GetToken s with
  | (.error err, s1) =>
    { err := some (.collaborator err), events := [.getToken], state := s1 }
  | (.ok token, s1) =>
    let timeout := timeoutOf flags
    match env.NewClient token flags.BaseURL timeout with
    | .error err =>
      { err := some (.collaborator err)
        events := [.getToken, .newClient token flags.BaseURL timeout], state := s1 }
    | .ok client =>
      if c.MessagesLimit < 0 ∨ c.MessagesLimit > 20 then
        { err := some (.UsageError "invalid --messages-limit %d (expected 1-20)" c.MessagesLimit)
          events := [.getToken, .newClient token flags.BaseURL timeout], state := s1 }
      else
        let r := client.Client.Search rfc3339
          { Query := c.Query
            MessagesCursor := c.MessagesCursor
            MessagesDirection := c.MessagesDirection
            MessagesLimit := c.MessagesLimit } s1
        let events : List CmdEvent :=
          [.getToken, .newClient token flags.BaseURL timeout] ++ r.calls.map CmdEvent.gateway
        match r.err with
        | some err => { err := some (.collaborator err), events := events, state := r.state }
        | none =>
          { err := (render r.result).map CmdError.collaborator
            events := events, state := r.state }

/-! ## Specification-side vocabulary for the display-name claims -/

/-- The first non-empty of `FullName`, `Username`, `ID`, else `""`: the
priority order in which the specification reads a participant. -/
def firstNonEmptyName (p : User) : String :=
  if p.FullName ≠ "" then p.FullName
  else if p.Username ≠ "" then p.Username
  else if p.ID ≠ "" then p.ID
  else ""

/-- The display name as the specification words it: take the first participant
with `isSelf = false` and read its name; `""` when there is none. -/
def displayNameOfFirstNonSelf (participants : List User) : String :=
  match participants.find? (fun p => !p.IsSelf) with
  | some p => firstNonEmptyName p
  | none => ""

/-- A participant the scan can stop at: not self, and one of its three name
fields is non-empty. -/
def isNamedNonSelf (p : User) : Bool :=
  !p.IsSelf && (p.FullName != "" || p.Username != "" || p.ID != "")

/-! ## Specification-side vocabulary for the chat claims -/

/-- The string constant the collaborator API knows a list direction by. -/
def ChatListParamsDirection.wire : ChatListParamsDirection → String
  | .Before => "before"
  | .After => "after"

/-- The direction an outbound list request carries, as a string; an absent
direction is the empty string. -/
def wireDirection (d : Option ChatListParamsDirection) : String :=
  match d with
  | some x => x.wire
  | none => ""

/-- The cursor an outbound request carries, as a string; an absent cursor is
the empty string. -/
def wireCursor (c : Option String) : String :=
  match c with
  | some x => x
  | none => ""

/-- The normalized result expected for a page of `SDK.Chats.List`: one item per
chat, in order, flags and cursors unchanged. -/
def chatListResultOf (rfc3339 : Time → String) (page : SdkChatPage) : ChatListResult :=
  { Items := page.Items.map (chatListItemOf rfc3339)
    HasMore := page.HasMore
    OldestCursor := page.OldestCursor
    NewestCursor := page.NewestCursor }

/-- The normalized result expected for a page of `SDK.Chats.Search`. -/
def chatSearchResultOf (page : SdkChatPage) : ChatSearchResult :=
  { Items := page.Items.map chatSearchItemOf
    HasMore := page.HasMore
    OldestCursor := page.OldestCursor
    NewestCursor := page.NewestCursor }

/-! ## A gateway double serving a fixed sequence of pages

Page `k` carries the cursors `oldestToken k` and `newestToken k`. A request
with direction after and the newest cursor of page `k` is served page `k + 1`,
one with direction before and the oldest cursor of page `k` is served page
`k - 1`, and any other request is served page `0`. -/

/-- Newest-edge cursor of page `k`. -/
def newestToken (k : Nat) : String := String.mk ('n' :: List.replicate k '#')

/-- Oldest-edge cursor of page `k`. -/
def oldestToken (k : Nat) : String := String.mk ('o' :: List.replicate k '#')

/-- The page a request asks the double for; `after` is `some true` for
direction after, `some false` for before. -/
def pageIndex (cursor : Option String) (after : Option Bool) : Nat :=
  match cursor, after with
  | some c, some true => if c.data.head? = some 'n' then c.data.tail.length + 1 else 0
  | some c, some false => if c.data.head? = some 'o' then c.data.tail.length - 1 else 0
  | _, _ => 0

/-- Page `k` of chats as the double serves it. -/
def servedChats (pages : List (List Chat)) (k : Nat) : SdkChatPage :=
  { Items := pages.getD k []
    HasMore := decide (k + 1 < pages.length)
    OldestCursor := oldestToken k
    NewestCursor := newestToken k }

/-- Page `k` of messages as the double serves it. -/
def servedMessages (pages : List (List MessageItem)) (k : Nat) : MessageSearchResult :=
  { Items := pages.getD k []
    HasMore := decide (k + 1 < pages.length)
    OldestCursor := oldestToken k
    NewestCursor := newestToken k }

/-- Page `k` of messages as a caller of global search should see it: the items
of page `k` and its two cursors, written out field by field. -/
def expectedMessages (pages : List (List MessageItem)) (k : Nat) : SearchMessages :=
  { Items := pages.getD k []
    HasMore := decide (k + 1 < pages.length)
    OldestCursor := oldestToken k
    NewestCursor := newestToken k }

/-- Chat gateway double over a fixed sequence of pages. -/
def pagedChats {σ ε : Type} (pages : List (List Chat)) : ChatsService σ ε :=
  { SDKChatsList := fun req s =>
      (.ok (servedChats pages (pageIndex req.Cursor
        (req.Direction.map (fun d => decide (d = ChatListParamsDirection.After))))), s)
    SDKChatsSearch := fun req s =>
      (.ok (servedChats pages (pageIndex req.Cursor
        (req.Direction.map (fun d => decide (d = ChatSearchParamsDirection.After))))), s)
    SDKChatsGet := fun chatID s => (.ok { ID := chatID }, s)
    SDKChatsArchive := fun _ _ s => (none, s) }

/-- Search gateway double: a fixed combined response, and message search over
a fixed sequence of pages. -/
def pagedMessages {σ ε : Type} (resp : SdkSearchResponse) (pages : List (List MessageItem)) :
    Client σ ε :=
  { SDKSearch := fun _ s => (.ok resp, s)
    MessagesSearch := fun req s =>
      (.ok (servedMessages pages (pageIndex
        (if req.Cursor = "" then none else some req.Cursor)
        (if req.Direction = "after" then some true
          else if req.Direction = "before" then some false else none))), s) }

/-! ## Test data -/

/-- Two non-self participants, the first with no name at all. -/
def blankThenBob : List User :=
  [{ IsSelf := false }, { IsSelf := false, FullName := "Bob" }]

/-- The specification's scenario participant `{isSelf:true, id:"u1"}`. -/
def selfU1 : User := { IsSelf := true, ID := "u1" }

/-- The specification's scenario participant
`{isSelf:false, fullName:"", username:"bob", id:"u2"}`. -/
def bobU2 : User := { IsSelf := false, FullName := "", Username := "bob", ID := "u2" }

/-- A combined search response with one direct chat, one group chat and an
inline bucket of two messages. -/
def demoResponse : SdkSearchResponse :=
  { Results :=
      { Chats :=
          [{ ID := "c1", Title := "Chat", ChatType := "single", Network := "net",
             AccountID := "a1", UnreadCount := 2,
             Participants := { Items := [selfU1, bobU2], Total := 2 } }]
        InGroups := [{ ID := "g1", Title := "Team", ChatType := "group", AccountID := "a1" }]
        Messages :=
          { Items :=
              [{ ID := "m1", ChatID := "c1", SenderID := "u2", SenderName := "Bob", Text := "hi" },
               { ID := "m2", ChatID := "c1", SenderID := "u1", Text := "hello" }]
            HasMore := true
            OldestCursor := "old-inline"
            NewestCursor := "new-inline" } } }

/-- A page of the dedicated message search, unlike the inline bucket. -/
def demoPage : MessageSearchResult :=
  { Items := [{ ID := "m9", ChatID := "c7", SenderID := "u5", SenderName := "Eve", Text := "paged" }]
    HasMore := false
    OldestCursor := "old-page"
    NewestCursor := "new-page" }

/-- Another page of the dedicated message search. -/
def otherPage : MessageSearchResult :=
  { Items := [], HasMore := true, OldestCursor := "x", NewestCursor := "y" }

/-- A timestamp formatter for the test data. -/
def demoFormat : Time → String := fun _ => "2024-01-01T00:00:00Z"

/-- Gateway double whose state counts the calls served: both calls succeed. -/
def demoClient : Client Nat String :=
  { SDKSearch := fun _ n => (.ok demoResponse, n + 1)
    MessagesSearch := fun _ n => (.ok demoPage, n + 1) }

/-- Gateway double serving the same combined response and another message page. -/
def otherPageClient : Client Nat String :=
  { SDKSearch := fun _ n => (.ok demoResponse, n + 1)
    MessagesSearch := fun _ n => (.ok otherPage, n + 1) }

/-- Gateway double whose message-search call fails. -/
def failingMessagesClient : Client Nat String :=
  { SDKSearch := fun _ n => (.ok demoResponse, n + 1)
    MessagesSearch := fun _ n => (.error "messages.search: 500", n + 1) }

/-- A direct chat with a last-activity timestamp, a preview and two of its five
participants returned. -/
def demoChat : Chat :=
  { ID := "c1", Title := "Chat", ChatType := "single", Network := "net", AccountID := "a1",
    UnreadCount := 2, LastActivity := { sec := 63871200000 },
    Participants := { Items := [selfU1, bobU2], Total := 5, HasMore := true },
    PreviewValid := true, PreviewText := "see you" }

/-- A group chat that never had any activity. -/
def quietChat : Chat :=
  { ID := "g1", Title := "Team", ChatType := "group", AccountID := "a1" }

/-- Chat gateway double whose state counts the calls served; it knows the
chat "c1" only. -/
def demoChats : ChatsService Nat String :=
  { SDKChatsList := fun _ n =>
      (.ok { Items := [demoChat, quietChat], HasMore := true,
             OldestCursor := "old", NewestCursor := "new" }, n + 1)
    SDKChatsSearch := fun _ n => (.ok { Items := [demoChat] }, n + 1)
    SDKChatsGet := fun chatID n =>
      (if chatID = "c1" then .ok demoChat else .error "chats.get: 404", n + 1)
    SDKChatsArchive := fun _ _ n => (none, n + 1) }

/-- Chat gateway double whose state is the list of archived chat ids; archiving
an archived chat, or unarchiving one that is not, succeeds and changes
nothing. -/
def archiveDouble : ChatsService (List String) String :=
  { SDKChatsList := fun _ st => (.ok {}, st)
    SDKChatsSearch := fun _ st => (.ok {}, st)
    SDKChatsGet := fun _ st => (.error "chats.get: 404", st)
    SDKChatsArchive := fun chatID req st =>
      (none,
        if req.Archived = some true then (if chatID ∈ st then st else chatID :: st)
        else st.filter (fun x => x ≠ chatID)) }

/-- Command collaborators over the doubles: the token is found, the client is
constructed and rendering succeeds. -/
def demoEnv : CmdEnv Nat String :=
  { GetToken := fun n => (.ok "token", n + 1)
    NewClient := fun _ _ _ => .ok { Client := demoClient, Chats := demoChats }
    RenderChatSearch := fun _ => none }

/-- Three pages of one chat each. -/
def threeChatPages : List (List Chat) :=
  [[{ ID := "c1" }], [{ ID := "c2" }], [{ ID := "c3" }]]

/-- Three pages of one message each. -/
def threeMessagePages : List (List MessageItem) :=
  [[{ ID := "m1" }], [{ ID := "m2" }], [{ ID := "m3" }]]

/-- A list request asking the paged double for page 1. -/
def pageOneList : ChatListParams := { Cursor := newestToken 0, Direction := "after" }

/-- A chat search request asking the paged double for page 1. -/
def pageOneSearch : ChatSearchParams :=
  { Query := "q", Limit := 10, Cursor := newestToken 0, Direction := "after" }

/-- A global search request asking the paged double for message page 1. -/
def pageOneMessages : SearchParams :=
  { Query := "q", MessagesCursor := newestToken 0, MessagesDirection := "after" }

/-- A page with no items that still reports more. -/
def emptyMorePage : SdkChatPage :=
  { Items := [], HasMore := true, OldestCursor := "old", NewestCursor := "new" }

/-- Chat gateway double that serves `emptyMorePage` for every list and search. -/
def emptyMoreChats : ChatsService Nat String :=
  { SDKChatsList := fun _ n => (.ok emptyMorePage, n + 1)
    SDKChatsSearch := fun _ n => (.ok emptyMorePage, n + 1)
    SDKChatsGet := fun _ n => (.error "chats.get: 404", n + 1)
    SDKChatsArchive := fun _ _ n => (none, n + 1) }

/-- Search gateway double whose inline bucket has no items and reports more. -/
def emptyMoreClient : Client Nat String :=
  { SDKSearch := fun _ n =>
      (.ok { Results := { Messages := { Items := [], HasMore := true } } }, n + 1)
    MessagesSearch := fun _ n => (.ok otherPage, n + 1) }

/-- Search gateway double whose combined call fails. -/
def failingSearchClient : Client Nat String :=
  { SDKSearch := fun _ n => (.error "search: 503", n + 1)
    MessagesSearch := fun _ n => (.ok demoPage, n + 1) }

/-- Command collaborators whose token lookup fails. -/
def noTokenEnv : CmdEnv Nat String :=
  { GetToken := fun n => (.error "no token", n + 1)
    NewClient := fun _ _ _ => .ok { Client := demoClient, Chats := demoChats }
    RenderChatSearch := fun _ => none }

/-- A self participant with a full name and a named non-self participant. -/
def meThenAnn : List User :=
  [{ IsSelf := true, FullName := "Me", ID := "u0" }, { IsSelf := false, Username := "ann" }]

/-! ## Lemmas on the scan -/

theorem displayNameLoop_skip_selves (xs rest : List User)
    (hxs : ∀ x ∈ xs, x.IsSelf = true) :
    displayNameLoop (xs ++ rest) = displayNameLoop rest := by
  induction xs with
  | nil => rfl
  | cons x xs ih =>
    have hx : x.IsSelf = true := hxs x (List.mem_cons_self x xs)
    have hrest : ∀ y ∈ xs, y.IsSelf = true := fun y hy => hxs y (List.mem_cons_of_mem x hy)
    simp [displayNameLoop, hx, ih hrest]

theorem displayNameLoop_named (p : User) (rest : List User) (hp : isNamedNonSelf p = true) :
    displayNameLoop (p :: rest) = firstNonEmptyName p := by
  simp only [isNamedNonSelf, Bool.and_eq_true, Bool.not_eq_true', Bool.or_eq_true,
    bne_iff_ne, ne_eq] at hp
  obtain ⟨hself, hname⟩ := hp
  by_cases h1 : p.FullName = ""
  · by_cases h2 : p.Username = ""
    · by_cases h3 : p.ID = ""
      · simp [h1, h2, h3] at hname
      · simp [displayNameLoop, firstNonEmptyName, hself, h1, h2, h3]
    · simp [displayNameLoop, firstNonEmptyName, hself, h1, h2]
  · simp [displayNameLoop, firstNonEmptyName, hself, h1]

theorem displayNameLoop_skip (p : User) (rest : List User) (hp : isNamedNonSelf p = false) :
    displayNameLoop (p :: rest) = displayNameLoop rest := by
  cases hself : p.IsSelf with
  | true => simp [displayNameLoop, hself]
  | false =>
    simp only [isNamedNonSelf, hself, Bool.not_false, Bool.true_and, Bool.or_eq_false_iff,
      bne_eq_false_iff_eq] at hp
    obtain ⟨⟨h1, h2⟩, h3⟩ := hp
    simp [displayNameLoop, hself, h1, h2, h3]

theorem displayNameLoop_eq_find (ps : List User) :
    displayNameLoop ps =
      match ps.find? isNamedNonSelf with
      | some p => firstNonEmptyName p
      | none => "" := by
  induction ps with
  | nil => rfl
  | cons p rest ih =>
    cases hp : isNamedNonSelf p with
    | true => simp [List.find?, hp, displayNameLoop_named p rest hp]
    | false => simp [List.find?, hp, displayNameLoop_skip p rest hp, ih]

/-! ## Claims on `displayNameForChat` -/

/-- C1, as amended: for every chat of type "single", `displayNameForChat` returns
the first non-empty of (fullName, username, id) of the first participant, in
input order, that is not self and has at least one of the three non-empty;
it returns the empty string when there is no such participant. -/
theorem displayNameForChat_single_first_named (title : String) (participants : List User) :
    displayNameForChat "single" title participants =
      match participants.find? isNamedNonSelf with
      | some p => firstNonEmptyName p
      | none => "" := by
  simp [displayNameForChat, displayNameLoop_eq_find]

/-- C1, as stated, fails: with participants `[blank non-self, non-self "Bob"]`
the first non-self participant has no name, so the claim predicts `""`, while
the scan goes on to the next participant and returns `"Bob"`. -/
theorem displayNameForChat_first_non_self_counterexample :
    displayNameOfFirstNonSelf blankThenBob = "" ∧
      displayNameForChat "single" "Chat" blankThenBob = "Bob" ∧
      displayNameForChat "single" "Chat" blankThenBob ≠ displayNameOfFirstNonSelf blankThenBob := by
  decide

/-- C2: for every chat type other than "single", every title and every
participant list, `displayNameForChat` returns the empty string. -/
theorem displayNameForChat_not_single (chatType title : String) (participants : List User)
    (h : chatType ≠ "single") :
    displayNameForChat chatType title participants = "" := by
  simp [displayNameForChat, h]

/-- Witness for C2: a "group" chat with a named non-self participant. -/
theorem displayNameForChat_not_single_witness :
    "group" ≠ "single" ∧ displayNameForChat "group" "Team" [bobU2] = "" :=
  ⟨by decide, displayNameForChat_not_single "group" "Team" [bobU2] (by decide)⟩

/-- C3: first-match scan. For a "single" chat whose participants are
`xs ++ [p] ++ ys`, with every element of `xs` self and `p` a non-self
participant with a non-empty fullName, username or id, the result is the
first non-empty of (p.fullName, p.username, p.id), whatever `ys` is. -/
theorem displayNameForChat_short_circuit (title : String) (xs ys : List User) (p : User)
    (hxs : ∀ x ∈ xs, x.IsSelf = true) (hself : p.IsSelf = false)
    (hname : p.FullName ≠ "" ∨ p.Username ≠ "" ∨ p.ID ≠ "") :
    displayNameForChat "single" title (xs ++ [p] ++ ys) = firstNonEmptyName p := by
  have hp : isNamedNonSelf p = true := by
    simp only [isNamedNonSelf, hself, Bool.not_false, Bool.true_and, Bool.or_eq_true,
      bne_iff_ne, ne_eq]
    tauto
  have hloop : displayNameLoop (xs ++ [p] ++ ys) = firstNonEmptyName p := by
    rw [List.append_assoc, displayNameLoop_skip_selves xs ([p] ++ ys) hxs]
    exact displayNameLoop_named p ys hp
  unfold displayNameForChat
  rw [if_neg (not_not.mpr rfl)]
  exact hloop

/-- Witness for C3: the scenario `[selfU1, bobU2]` gives "bob". -/
theorem displayNameForChat_short_circuit_witness :
    (∀ x ∈ [selfU1], x.IsSelf = true) ∧ bobU2.IsSelf = false ∧
      (bobU2.FullName ≠ "" ∨ bobU2.Username ≠ "" ∨ bobU2.ID ≠ "") ∧
      displayNameForChat "single" "Chat" ([selfU1] ++ [bobU2] ++ []) = firstNonEmptyName bobU2 ∧
      firstNonEmptyName bobU2 = "bob" :=
  ⟨by decide, by decide, by decide,
    displayNameForChat_short_circuit "Chat" [selfU1] [] bobU2 (by decide) (by decide) (by decide),
    by decide⟩

/-- C4: for a "single" chat whose participants are all self (the empty list
included), `displayNameForChat` returns the empty string, whatever names those
self participants carry. -/
theorem displayNameForChat_only_self (title : String) (participants : List User)
    (h : ∀ p ∈ participants, p.IsSelf = true) :
    displayNameForChat "single" title participants = "" := by
  have hloop : displayNameLoop participants = "" := by
    have := displayNameLoop_skip_selves participants [] h
    simpa [displayNameLoop] using this
  simp [displayNameForChat, hloop]

/-- Witness for C4: the scenario `[selfU1]` gives "". -/
theorem displayNameForChat_only_self_witness :
    (∀ p ∈ [selfU1], p.IsSelf = true) ∧ displayNameForChat "single" "Chat" [selfU1] = "" :=
  ⟨by decide, displayNameForChat_only_self "Chat" [selfU1] (by decide)⟩

/-! ## Lemmas on `Client.Search` -/

theorem appendEach_eq_append_map {α β : Type} (body : α → β) (acc : List β) (xs : List α) :
    appendEach body acc xs = acc ++ xs.map body := by
  induction xs generalizing acc with
  | nil => simp [appendEach]
  | cons x xs ih =>
    have hstep : appendEach body acc (x :: xs) = appendEach body (acc ++ [body x]) xs := rfl
    rw [hstep, ih]
    simp

/-- Step 1 fails: the error is returned at once. -/
theorem Search_step1_error {σ ε : Type} (c : Client σ ε) (rfc3339 : Time → String)
    (params : SearchParams) (s s1 : σ) (e : ε)
    (h : c.SDKSearch { Query := params.Query } s = (.error e, s1)) :
    c.Search rfc3339 params s =
      { result := {}, err := some e, calls := [.search { Query := params.Query }], state := s1 } := by
  simp only [Client.Search, h]

/-- Step 1 succeeds and no trigger holds: one call, the inline bucket is kept. -/
theorem Search_no_paging {σ ε : Type} (c : Client σ ε) (rfc3339 : Time → String)
    (params : SearchParams) (s s1 : σ) (resp : SdkSearchResponse)
    (h : c.SDKSearch { Query := params.Query } s = (.ok resp, s1))
    (hc : params.MessagesCursor = "") (hd : params.MessagesDirection = "")
    (hl : params.MessagesLimit ≤ 0) :
    c.Search rfc3339 params s =
      { result :=
          { Chats := resp.Results.Chats.map searchChatOf
            InGroups := resp.Results.InGroups.map searchChatOf
            Messages :=
              { Items := resp.Results.Messages.Items.map (messageItemOf rfc3339)
                HasMore := resp.Results.Messages.HasMore
                OldestCursor := resp.Results.Messages.OldestCursor
                NewestCursor := resp.Results.Messages.NewestCursor } }
        err := none
        calls := [.search { Query := params.Query }]
        state := s1 } := by
  have hl2 : ¬ (0 < params.MessagesLimit) := not_lt.mpr hl
  simp [Client.Search, h, hc, hd, hl2, appendEach_eq_append_map]

/-- Step 1 succeeds, a trigger holds and the message search succeeds. -/
theorem Search_paging_ok {σ ε : Type} (c : Client σ ε) (rfc3339 : Time → String)
    (params : SearchParams) (s s1 s2 : σ) (resp : SdkSearchResponse) (msgs : MessageSearchResult)
    (h : c.SDKSearch { Query := params.Query } s = (.ok resp, s1))
    (ht : params.MessagesCursor ≠ "" ∨ params.MessagesDirection ≠ "" ∨ 0 < params.MessagesLimit)
    (h2 : c.MessagesSearch
      { Query := params.Query, Cursor := params.MessagesCursor,
        Direction := params.MessagesDirection,
        Limit := if params.MessagesLimit ≤ 0 then 20 else params.MessagesLimit } s1 =
        (.ok msgs, s2)) :
    c.Search rfc3339 params s =
      { result :=
          { Chats := resp.Results.Chats.map searchChatOf
            InGroups := resp.Results.InGroups.map searchChatOf
            Messages := SearchMessages.ofMessageSearchResult msgs }
        err := none
        calls := [.search { Query := params.Query },
          .messagesSearch
            { Query := params.Query, Cursor := params.MessagesCursor,
              Direction := params.MessagesDirection,
              Limit := if params.MessagesLimit ≤ 0 then 20 else params.MessagesLimit }]
        state := s2 } := by
  have hb : (params.MessagesCursor != "" || params.MessagesDirection != "" ||
      decide (params.MessagesLimit > 0)) = true := by
    simpa [or_assoc] using ht
  simp only [Client.Search, h, hb, if_true, h2, appendEach_eq_append_map, List.nil_append]

/-- Step 1 succeeds, a trigger holds and the message search fails. -/
theorem Search_paging_error {σ ε : Type} (c : Client σ ε) (rfc3339 : Time → String)
    (params : SearchParams) (s s1 s2 : σ) (resp : SdkSearchResponse) (e : ε)
    (h : c.SDKSearch { Query := params.Query } s = (.ok resp, s1))
    (ht : params.MessagesCursor ≠ "" ∨ params.MessagesDirection ≠ "" ∨ 0 < params.MessagesLimit)
    (h2 : c.MessagesSearch
      { Query := params.Query, Cursor := params.MessagesCursor,
        Direction := params.MessagesDirection,
        Limit := if params.MessagesLimit ≤ 0 then 20 else params.MessagesLimit } s1 =
        (.error e, s2)) :
    c.Search rfc3339 params s =
      { result := {}
        err := some e
        calls := [.search { Query := params.Query },
          .messagesSearch
            { Query := params.Query, Cursor := params.MessagesCursor,
              Direction := params.MessagesDirection,
              Limit := if params.MessagesLimit ≤ 0 then 20 else params.MessagesLimit }]
        state := s2 } := by
  have hb : (params.MessagesCursor != "" || params.MessagesDirection != "" ||
      decide (params.MessagesLimit > 0)) = true := by
    simpa [or_assoc] using ht
  simp only [Client.Search, h, hb, if_true, h2]

/-- Step 1 succeeds and a trigger holds: two calls, whatever the second returns. -/
theorem Search_paging_calls {σ ε : Type} (c : Client σ ε) (rfc3339 : Time → String)
    (params : SearchParams) (s s1 : σ) (resp : SdkSearchResponse)
    (h : c.SDKSearch { Query := params.Query } s = (.ok resp, s1))
    (ht : params.MessagesCursor ≠ "" ∨ params.MessagesDirection ≠ "" ∨ 0 < params.MessagesLimit) :
    (c.Search rfc3339 params s).calls =
      [.search { Query := params.Query },
        .messagesSearch
          { Query := params.Query, Cursor := params.MessagesCursor,
            Direction := params.MessagesDirection,
            Limit := if params.MessagesLimit ≤ 0 then 20 else params.MessagesLimit }] := by
  rcases hcall : c.MessagesSearch
      { Query := params.Query, Cursor := params.MessagesCursor,
        Direction := params.MessagesDirection,
        Limit := if params.MessagesLimit ≤ 0 then 20 else params.MessagesLimit } s1 with ⟨r, s2⟩
  cases r with
  | error e => rw [Search_paging_error c rfc3339 params s s1 s2 resp e h ht hcall]
  | ok msgs => rw [Search_paging_ok c rfc3339 params s s1 s2 resp msgs h ht hcall]

/-- A successful run went through a successful Step 1. -/
theorem Search_ok_step1 {σ ε : Type} (c : Client σ ε) (rfc3339 : Time → String)
    (params : SearchParams) (s : σ) (hok : (c.Search rfc3339 params s).err = none) :
    ∃ resp s1, c.SDKSearch { Query := params.Query } s = (.ok resp, s1) := by
  rcases hcall : c.SDKSearch { Query := params.Query } s with ⟨r, s1⟩
  cases r with
  | error e =>
    rw [Search_step1_error c rfc3339 params s s1 e hcall] at hok
    simp at hok
  | ok resp => exact ⟨resp, s1, rfl⟩

/-- After a successful Step 1, a successful run returns the mapped chats. -/
theorem Search_chats_of_ok {σ ε : Type} (c : Client σ ε) (rfc3339 : Time → String)
    (params : SearchParams) (s s1 : σ) (resp : SdkSearchResponse)
    (h : c.SDKSearch { Query := params.Query } s = (.ok resp, s1))
    (hok : (c.Search rfc3339 params s).err = none) :
    (c.Search rfc3339 params s).result.Chats = resp.Results.Chats.map searchChatOf ∧
      (c.Search rfc3339 params s).result.InGroups = resp.Results.InGroups.map searchChatOf := by
  by_cases ht : params.MessagesCursor ≠ "" ∨ params.MessagesDirection ≠ "" ∨
      0 < params.MessagesLimit
  · rcases hcall : c.MessagesSearch
        { Query := params.Query, Cursor := params.MessagesCursor,
          Direction := params.MessagesDirection,
          Limit := if params.MessagesLimit ≤ 0 then 20 else params.MessagesLimit } s1 with ⟨r, s2⟩
    cases r with
    | error e =>
      rw [Search_paging_error c rfc3339 params s s1 s2 resp e h ht hcall] at hok
      simp at hok
    | ok msgs =>
      rw [Search_paging_ok c rfc3339 params s s1 s2 resp msgs h ht hcall]
      exact ⟨rfl, rfl⟩
  · simp only [not_or, not_not, not_lt] at ht
    rw [Search_no_paging c rfc3339 params s s1 resp h ht.1 ht.2.1 ht.2.2]
    exact ⟨rfl, rfl⟩

/-! ## Claims on `Client.Search` -/

/-- C5: with MessagesCursor = "", MessagesDirection = "" and MessagesLimit = 0, when
the combined search call succeeds, exactly one gateway call is issued (the
combined one, no message-search call), no error is returned, and the returned
Messages has the inline bucket's hasMore, oldestCursor and newestCursor and
one item per inline message, in the same order. -/
theorem Search_no_controls_keeps_inline {σ ε : Type} (c : Client σ ε) (rfc3339 : Time → String)
    (params : SearchParams) (s s1 : σ) (resp : SdkSearchResponse)
    (hc : params.MessagesCursor = "") (hd : params.MessagesDirection = "")
    (hl : params.MessagesLimit = 0)
    (h : c.SDKSearch { Query := params.Query } s = (.ok resp, s1)) :
    (c.Search rfc3339 params s).calls = [.search { Query := params.Query }] ∧
      (c.Search rfc3339 params s).err = none ∧
      (c.Search rfc3339 params s).result.Messages.HasMore = resp.Results.Messages.HasMore ∧
      (c.Search rfc3339 params s).result.Messages.OldestCursor =
        resp.Results.Messages.OldestCursor ∧
      (c.Search rfc3339 params s).result.Messages.NewestCursor =
        resp.Results.Messages.NewestCursor ∧
      (c.Search rfc3339 params s).result.Messages.Items.length =
        resp.Results.Messages.Items.length ∧
      (c.Search rfc3339 params s).result.Messages.Items =
        resp.Results.Messages.Items.map (messageItemOf rfc3339) := by
  rw [Search_no_paging c rfc3339 params s s1 resp h hc hd (le_of_eq hl)]
  simp

/-- Witness for C5: the gateway double, queried without message controls. -/
theorem Search_no_controls_keeps_inline_witness :
    (demoClient.Search demoFormat { Query := "hello" } 0).calls = [.search { Query := "hello" }] ∧
      (demoClient.Search demoFormat { Query := "hello" } 0).state = 1 ∧
      (demoClient.Search demoFormat { Query := "hello" } 0).result.Messages.HasMore = true ∧
      (demoClient.Search demoFormat { Query := "hello" } 0).result.Messages.Items.length = 2 :=
  have hthm := Search_no_controls_keeps_inline demoClient demoFormat { Query := "hello" } 0 1
    demoResponse rfl rfl rfl rfl
  ⟨hthm.1, rfl, hthm.2.2.1, hthm.2.2.2.2.2.1⟩

/-- C6, as amended: given that the combined search call succeeds, for every
MessagesLimit n > 0 `Client.Search` issues a second, message-search call
carrying the same query, the supplied cursor and direction and limit n; when
that call succeeds too, the returned Messages is that call's page, field for
field, and nothing of the inline bucket survives. -/
theorem Search_limit_uses_second_page {σ ε : Type} (c : Client σ ε) (rfc3339 : Time → String)
    (params : SearchParams) (s s1 : σ) (resp : SdkSearchResponse)
    (hn : 0 < params.MessagesLimit)
    (h : c.SDKSearch { Query := params.Query } s = (.ok resp, s1)) :
    (c.Search rfc3339 params s).calls =
        [.search { Query := params.Query },
          .messagesSearch
            { Query := params.Query, Cursor := params.MessagesCursor,
              Direction := params.MessagesDirection, Limit := params.MessagesLimit }] ∧
      ∀ (msgs : MessageSearchResult) (s2 : σ),
        c.MessagesSearch
            { Query := params.Query, Cursor := params.MessagesCursor,
              Direction := params.MessagesDirection, Limit := params.MessagesLimit } s1 =
          (.ok msgs, s2) →
        (c.Search rfc3339 params s).err = none ∧
          (c.Search rfc3339 params s).result.Messages.Items = msgs.Items ∧
          (c.Search rfc3339 params s).result.Messages.HasMore = msgs.HasMore ∧
          (c.Search rfc3339 params s).result.Messages.OldestCursor = msgs.OldestCursor ∧
          (c.Search rfc3339 params s).result.Messages.NewestCursor = msgs.NewestCursor := by
  have ht : params.MessagesCursor ≠ "" ∨ params.MessagesDirection ≠ "" ∨
      0 < params.MessagesLimit := Or.inr (Or.inr hn)
  have hlim : (if params.MessagesLimit ≤ 0 then (20 : Int) else params.MessagesLimit) =
      params.MessagesLimit := if_neg (not_le.mpr hn)
  refine ⟨?_, ?_⟩
  · rw [Search_paging_calls c rfc3339 params s s1 resp h ht, hlim]
  · intro msgs s2 h2
    rw [← hlim] at h2
    rw [Search_paging_ok c rfc3339 params s s1 s2 resp msgs h ht h2]
    exact ⟨rfl, rfl, rfl, rfl, rfl⟩

/-- Witness for C6: MessagesLimit = 15 issues the second call with limit 15, and
the page of that call replaces the inline bucket. -/
theorem Search_limit_uses_second_page_witness :
    (demoClient.Search demoFormat { Query := "hello", MessagesLimit := 15 } 0).calls =
        [.search { Query := "hello" },
          .messagesSearch { Query := "hello", Cursor := "", Direction := "", Limit := 15 }] ∧
      (demoClient.Search demoFormat { Query := "hello", MessagesLimit := 15 } 0).result.Messages.Items
        = demoPage.Items ∧
      (demoClient.Search demoFormat { Query := "hello", MessagesLimit := 15 } 0).result.Messages.OldestCursor
        = "old-page" :=
  have hthm := Search_limit_uses_second_page demoClient demoFormat
    { Query := "hello", MessagesLimit := 15 } 0 1 demoResponse (by decide) rfl
  ⟨hthm.1, (hthm.2 demoPage 2 rfl).2.1, (hthm.2 demoPage 2 rfl).2.2.2.1⟩

/-- C6, as stated, fails: with MessagesLimit = 15 and a combined call that fails,
the combined call is the only one issued; no message-search call follows. -/
theorem Search_limit_second_call_counterexample :
    (failingSearchClient.Search demoFormat { Query := "q", MessagesLimit := 15 } 0).calls =
        [.search { Query := "q" }] ∧
      (∀ req, GatewayCall.messagesSearch req ∉
        (failingSearchClient.Search demoFormat { Query := "q", MessagesLimit := 15 } 0).calls) ∧
      (failingSearchClient.Search demoFormat { Query := "q", MessagesLimit := 15 } 0).err =
        some "search: 503" := by
  have hcalls :
      (failingSearchClient.Search demoFormat { Query := "q", MessagesLimit := 15 } 0).calls =
        [.search { Query := "q" }] := by decide
  refine ⟨hcalls, ?_, by decide⟩
  intro req
  rw [hcalls]
  simp

/-- C7: given that the combined search call succeeds, a message-search call is
among the calls issued if and only if MessagesCursor is non-empty, or
MessagesDirection is non-empty, or MessagesLimit > 0; in particular a negative
MessagesLimit with empty cursor and direction issues the combined call only. -/
theorem Search_second_call_iff_trigger {σ ε : Type} (c : Client σ ε) (rfc3339 : Time → String)
    (params : SearchParams) (s s1 : σ) (resp : SdkSearchResponse)
    (h : c.SDKSearch { Query := params.Query } s = (.ok resp, s1)) :
    ((∃ req, GatewayCall.messagesSearch req ∈ (c.Search rfc3339 params s).calls) ↔
        (params.MessagesCursor ≠ "" ∨ params.MessagesDirection ≠ "" ∨
          0 < params.MessagesLimit)) ∧
      (params.MessagesLimit < 0 → params.MessagesCursor = "" → params.MessagesDirection = "" →
        (c.Search rfc3339 params s).calls = [.search { Query := params.Query }]) := by
  refine ⟨?_, ?_⟩
  · by_cases ht : params.MessagesCursor ≠ "" ∨ params.MessagesDirection ≠ "" ∨
        0 < params.MessagesLimit
    · rw [Search_paging_calls c rfc3339 params s s1 resp h ht]
      simp [ht]
    · have hno := ht
      simp only [not_or, not_not, not_lt] at hno
      rw [Search_no_paging c rfc3339 params s s1 resp h hno.1 hno.2.1 hno.2.2]
      simp [ht]
  · intro hneg hc hd
    rw [Search_no_paging c rfc3339 params s s1 resp h hc hd (le_of_lt hneg)]

/-- Witness for C7: MessagesLimit = -5 with empty cursor and direction. -/
theorem Search_second_call_iff_trigger_witness :
    (demoClient.Search demoFormat { Query := "hello", MessagesLimit := -5 } 0).calls =
        [.search { Query := "hello" }] ∧
      ¬ ∃ req, GatewayCall.messagesSearch req ∈
        (demoClient.Search demoFormat { Query := "hello", MessagesLimit := -5 } 0).calls :=
  have hthm := Search_second_call_iff_trigger demoClient demoFormat
    { Query := "hello", MessagesLimit := -5 } 0 1 demoResponse rfl
  ⟨hthm.2 (by decide) rfl rfl, fun hex => by
    have htrig := hthm.1.mp hex
    revert htrig
    decide⟩

/-- C8: when the message-search call is triggered by a non-empty cursor or
direction while MessagesLimit <= 0, the limit it carries is 20; when
MessagesLimit > 0 the limit it carries is MessagesLimit. -/
theorem Search_second_call_limit {σ ε : Type} (c : Client σ ε) (rfc3339 : Time → String)
    (params : SearchParams) (s s1 : σ) (resp : SdkSearchResponse)
    (h : c.SDKSearch { Query := params.Query } s = (.ok resp, s1)) :
    (params.MessagesLimit ≤ 0 →
        (params.MessagesCursor ≠ "" ∨ params.MessagesDirection ≠ "") →
        (c.Search rfc3339 params s).calls =
          [.search { Query := params.Query },
            .messagesSearch
              { Query := params.Query, Cursor := params.MessagesCursor,
                Direction := params.MessagesDirection, Limit := 20 }]) ∧
      (0 < params.MessagesLimit →
        (c.Search rfc3339 params s).calls =
          [.search { Query := params.Query },
            .messagesSearch
              { Query := params.Query, Cursor := params.MessagesCursor,
                Direction := params.MessagesDirection, Limit := params.MessagesLimit }]) := by
  refine ⟨?_, ?_⟩
  · intro hle hcd
    have ht : params.MessagesCursor ≠ "" ∨ params.MessagesDirection ≠ "" ∨
        0 < params.MessagesLimit := by
      rcases hcd with hc | hd
      · exact Or.inl hc
      · exact Or.inr (Or.inl hd)
    rw [Search_paging_calls c rfc3339 params s s1 resp h ht, if_pos hle]
  · intro hpos
    rw [Search_paging_calls c rfc3339 params s s1 resp h (Or.inr (Or.inr hpos)),
      if_neg (not_le.mpr hpos)]

/-- Witness for C8: a cursor alone sends limit 20, also with a negative limit. -/
theorem Search_second_call_limit_witness :
    (demoClient.Search demoFormat { Query := "hello", MessagesCursor := "cur" } 0).calls =
        [.search { Query := "hello" },
          .messagesSearch { Query := "hello", Cursor := "cur", Direction := "", Limit := 20 }] ∧
      (demoClient.Search demoFormat
          { Query := "hello", MessagesDirection := "before", MessagesLimit := -3 } 0).calls =
        [.search { Query := "hello" },
          .messagesSearch { Query := "hello", Cursor := "", Direction := "before", Limit := 20 }] :=
  ⟨(Search_second_call_limit demoClient demoFormat { Query := "hello", MessagesCursor := "cur" }
      0 1 demoResponse rfl).1 (by decide) (Or.inl (by decide)),
    (Search_second_call_limit demoClient demoFormat
      { Query := "hello", MessagesDirection := "before", MessagesLimit := -3 }
      0 1 demoResponse rfl).1 (by decide) (Or.inr (by decide))⟩

/-- C9: for every successful `Client.Search`, Chats and InGroups are the
element-wise, order-preserving mapping of the combined response's chats and
inGroups, each with DisplayName computed by `displayNameForChat`; and a second
successful run against the same combined call, with other message-pagination
controls and another message-search call, returns the same Chats and
InGroups. -/
theorem Search_chats_from_step1_only {σ ε : Type} (c c2 : Client σ ε)
    (rfc3339 rfc3339b : Time → String) (params params2 : SearchParams) (s : σ)
    (hquery : params2.Query = params.Query) (hsdk : c2.SDKSearch = c.SDKSearch)
    (hok : (c.Search rfc3339 params s).err = none)
    (hok2 : (c2.Search rfc3339b params2 s).err = none) :
    ∃ resp s1, c.SDKSearch { Query := params.Query } s = (.ok resp, s1) ∧
      (c.Search rfc3339 params s).result.Chats =
        resp.Results.Chats.map (fun chat =>
          { ID := chat.ID
            Title := chat.Title
            DisplayName := displayNameForChat chat.ChatType chat.Title chat.Participants.Items
            ChatType := chat.ChatType
            Network := chat.Network
            AccountID := chat.AccountID
            UnreadCount := chat.UnreadCount }) ∧
      (c.Search rfc3339 params s).result.InGroups =
        resp.Results.InGroups.map (fun chat =>
          { ID := chat.ID
            Title := chat.Title
            DisplayName := displayNameForChat chat.ChatType chat.Title chat.Participants.Items
            ChatType := chat.ChatType
            Network := chat.Network
            AccountID := chat.AccountID
            UnreadCount := chat.UnreadCount }) ∧
      (c2.Search rfc3339b params2 s).result.Chats = (c.Search rfc3339 params s).result.Chats ∧
      (c2.Search rfc3339b params2 s).result.InGroups =
        (c.Search rfc3339 params s).result.InGroups := by
  obtain ⟨resp, s1, h⟩ := Search_ok_step1 c rfc3339 params s hok
  have h2 : c2.SDKSearch { Query := params2.Query } s = (.ok resp, s1) := by
    rw [hsdk, hquery, h]
  have hA := Search_chats_of_ok c rfc3339 params s s1 resp h hok
  have hB := Search_chats_of_ok c2 rfc3339b params2 s s1 resp h2 hok2
  exact ⟨resp, s1, h, hA.1, hA.2, hB.1.trans hA.1.symm, hB.2.trans hA.2.symm⟩

/-- Witness for C9: no controls against one double, limit 5 and a cursor against
a double serving another message page. -/
theorem Search_chats_from_step1_only_witness :
    (otherPageClient.Search demoFormat
        { Query := "hello", MessagesCursor := "cur", MessagesLimit := 5 } 0).result.Chats =
      (demoClient.Search demoFormat { Query := "hello" } 0).result.Chats ∧
    (otherPageClient.Search demoFormat
        { Query := "hello", MessagesCursor := "cur", MessagesLimit := 5 } 0).result.Messages ≠
      (demoClient.Search demoFormat { Query := "hello" } 0).result.Messages :=
  ⟨(Search_chats_from_step1_only demoClient otherPageClient demoFormat demoFormat
      { Query := "hello" } { Query := "hello", MessagesCursor := "cur", MessagesLimit := 5 } 0
      rfl rfl rfl rfl).choose_spec.choose_spec.2.2.2.1,
    by decide⟩

/-- C10: if the combined search call succeeds and the triggered message-search
call fails with error e, `Client.Search` returns e itself together with the
empty SearchResult: no chats, no inGroups, no messages. -/
theorem Search_step2_failure_fails_all {σ ε : Type} (c : Client σ ε) (rfc3339 : Time → String)
    (params : SearchParams) (s s1 s2 : σ) (resp : SdkSearchResponse) (e : ε)
    (h : c.SDKSearch { Query := params.Query } s = (.ok resp, s1))
    (ht : params.MessagesCursor ≠ "" ∨ params.MessagesDirection ≠ "" ∨ 0 < params.MessagesLimit)
    (h2 : c.MessagesSearch
      { Query := params.Query, Cursor := params.MessagesCursor,
        Direction := params.MessagesDirection,
        Limit := if params.MessagesLimit ≤ 0 then 20 else params.MessagesLimit } s1 =
        (.error e, s2)) :
    (c.Search rfc3339 params s).err = some e ∧
      (c.Search rfc3339 params s).result = {} ∧
      (c.Search rfc3339 params s).result.Chats = [] ∧
      (c.Search rfc3339 params s).result.InGroups = [] ∧
      (c.Search rfc3339 params s).result.Messages =
        { Items := [], HasMore := false, OldestCursor := "", NewestCursor := "" } := by
  rw [Search_paging_error c rfc3339 params s s1 s2 resp e h ht h2]
  exact ⟨rfl, rfl, rfl, rfl, rfl⟩

/-- Witness for C10: the combined call returned a chat, the message search
failed, and the run returns the error with no chat at all. -/
theorem Search_step2_failure_fails_all_witness :
    demoResponse.Results.Chats ≠ [] ∧
      (failingMessagesClient.Search demoFormat { Query := "hello", MessagesLimit := 15 } 0).err =
        some "messages.search: 500" ∧
      (failingMessagesClient.Search demoFormat
        { Query := "hello", MessagesLimit := 15 } 0).result.Chats = [] :=
  have hthm := Search_step2_failure_fails_all failingMessagesClient demoFormat
    { Query := "hello", MessagesLimit := 15 } 0 1 2 demoResponse "messages.search: 500" rfl
    (Or.inr (Or.inr (by decide))) rfl
  ⟨by decide, hthm.1, hthm.2.2.1⟩

/-! ## Lemmas on the requests built by `ChatsService` -/

theorem listSdkParams_Cursor (p : ChatListParams) :
    (listSdkParams p).Cursor = if p.Cursor ≠ "" then some p.Cursor else none := by
  simp only [listSdkParams, apply_ite SdkChatListParams.Cursor, ite_self]

theorem listSdkParams_Direction (p : ChatListParams) :
    (listSdkParams p).Direction =
      if p.Direction = "before" then some ChatListParamsDirection.Before
      else if p.Direction = "after" then some ChatListParamsDirection.After
      else none := by
  simp only [listSdkParams, apply_ite SdkChatListParams.Direction, ite_self]

theorem searchSdkParams_Query (p : ChatSearchParams) :
    (searchSdkParams p).Query = if p.Query ≠ "" then some p.Query else none := by
  simp only [searchSdkParams, apply_ite SdkChatSearchParams.Query, ite_self]

theorem searchSdkParams_UnreadOnly (p : ChatSearchParams) :
    (searchSdkParams p).UnreadOnly = if p.UnreadOnly = true then some true else none := by
  simp only [searchSdkParams, apply_ite SdkChatSearchParams.UnreadOnly, ite_self]

theorem searchSdkParams_Limit (p : ChatSearchParams) :
    (searchSdkParams p).Limit = if p.Limit > 0 then some p.Limit else none := by
  simp only [searchSdkParams, apply_ite SdkChatSearchParams.Limit, ite_self]

theorem searchSdkParams_Cursor (p : ChatSearchParams) :
    (searchSdkParams p).Cursor = if p.Cursor ≠ "" then some p.Cursor else none := by
  simp only [searchSdkParams, apply_ite SdkChatSearchParams.Cursor, ite_self]

theorem searchSdkParams_Direction (p : ChatSearchParams) :
    (searchSdkParams p).Direction =
      if p.Direction = "before" then some ChatSearchParamsDirection.Before
      else if p.Direction = "after" then some ChatSearchParamsDirection.After
      else none := by
  simp only [searchSdkParams, apply_ite SdkChatSearchParams.Direction, ite_self]

theorem searchSdkParams_Inbox (p : ChatSearchParams) :
    (searchSdkParams p).Inbox =
      if p.Inbox = "primary" then some ChatSearchParamsInbox.Primary
      else if p.Inbox = "low-priority" then some ChatSearchParamsInbox.LowPriority
      else if p.Inbox = "archive" then some ChatSearchParamsInbox.Archive
      else none := by
  simp only [searchSdkParams, apply_ite SdkChatSearchParams.Inbox, ite_self]

theorem searchSdkParams_ChatType (p : ChatSearchParams) :
    (searchSdkParams p).ChatType =
      if p.ChatType = "direct" then some ChatSearchParamsType.Single
      else if p.ChatType = "group" then some ChatSearchParamsType.Group
      else if p.ChatType = "any" then some ChatSearchParamsType.Any
      else none := by
  simp only [searchSdkParams, apply_ite SdkChatSearchParams.ChatType, ite_self]

theorem searchSdkParams_Scope (p : ChatSearchParams) :
    (searchSdkParams p).Scope =
      if p.Scope = "titles" then some ChatSearchParamsScope.Titles
      else if p.Scope = "participants" then some ChatSearchParamsScope.Participants
      else none := by
  simp only [searchSdkParams, apply_ite SdkChatSearchParams.Scope, ite_self]

/-! ## Lemmas on the operations of `ChatsService` -/

theorem List_ok {σ ε : Type} (svc : ChatsService σ ε) (rfc3339 : Time → String)
    (params : ChatListParams) (s s1 : σ) (page : SdkChatPage)
    (h : svc.SDKChatsList (listSdkParams params) s = (.ok page, s1)) :
    svc.List rfc3339 params s =
      { result := chatListResultOf rfc3339 page, err := none
        calls := [.chatsList (listSdkParams params)], state := s1 } := by
  simp only [ChatsService.List, h, appendEach_eq_append_map, List.nil_append, chatListResultOf]

theorem List_error {σ ε : Type} (svc : ChatsService σ ε) (rfc3339 : Time → String)
    (params : ChatListParams) (s s1 : σ) (e : ε)
    (h : svc.SDKChatsList (listSdkParams params) s = (.error e, s1)) :
    svc.List rfc3339 params s =
      { result := {}, err := some e
        calls := [.chatsList (listSdkParams params)], state := s1 } := by
  simp only [ChatsService.List, h]

theorem List_calls {σ ε : Type} (svc : ChatsService σ ε) (rfc3339 : Time → String)
    (params : ChatListParams) (s : σ) :
    (svc.List rfc3339 params s).calls = [.chatsList (listSdkParams params)] := by
  rcases hcall : svc.SDKChatsList (listSdkParams params) s with ⟨r, s1⟩
  cases r with
  | error e => rw [List_error svc rfc3339 params s s1 e hcall]
  | ok page => rw [List_ok svc rfc3339 params s s1 page hcall]

theorem ChatsSearch_ok {σ ε : Type} (svc : ChatsService σ ε)
    (params : ChatSearchParams) (s s1 : σ) (page : SdkChatPage)
    (h : svc.SDKChatsSearch (searchSdkParams params) s = (.ok page, s1)) :
    svc.Search params s =
      { result := chatSearchResultOf page, err := none
        calls := [.chatsSearch (searchSdkParams params)], state := s1 } := by
  simp only [ChatsService.Search, h, appendEach_eq_append_map, List.nil_append,
    chatSearchResultOf]

theorem ChatsSearch_error {σ ε : Type} (svc : ChatsService σ ε)
    (params : ChatSearchParams) (s s1 : σ) (e : ε)
    (h : svc.SDKChatsSearch (searchSdkParams params) s = (.error e, s1)) :
    svc.Search params s =
      { result := {}, err := some e
        calls := [.chatsSearch (searchSdkParams params)], state := s1 } := by
  simp only [ChatsService.Search, h]

theorem ChatsSearch_calls {σ ε : Type} (svc : ChatsService σ ε)
    (params : ChatSearchParams) (s : σ) :
    (svc.Search params s).calls = [.chatsSearch (searchSdkParams params)] := by
  rcases hcall : svc.SDKChatsSearch (searchSdkParams params) s with ⟨r, s1⟩
  cases r with
  | error e => rw [ChatsSearch_error svc params s s1 e hcall]
  | ok page => rw [ChatsSearch_ok svc params s s1 page hcall]

theorem Get_error {σ ε : Type} (svc : ChatsService σ ε) (rfc3339 : Time → String)
    (chatID : String) (s s1 : σ) (e : ε)
    (h : svc.SDKChatsGet chatID s = (.error e, s1)) :
    svc.Get rfc3339 chatID s =
      { result := {}, err := some e, calls := [.chatsGet chatID], state := s1 } := by
  simp only [ChatsService.Get, h]

/-! ## Claims on chat search: limit, filters, request fields -/

/-- C11: the chat search command rejects every limit outside [1,200] with a
UsageError before anything else happens (no token lookup, no client
construction, no gateway call, state untouched); for a limit within [1,200]
it raises no UsageError and goes on to the token lookup. -/
theorem ChatsSearchCmd_limit_checked_first {σ ε : Type} (c : ChatsSearchCmd) (env : CmdEnv σ ε)
    (flags : RootFlags) (s : σ) :
    ((c.Limit < 1 ∨ 200 < c.Limit) →
        (c.Run env flags s).err =
          some (.UsageError "invalid --limit %d (expected 1-200)" c.Limit) ∧
        (c.Run env flags s).events = [] ∧
        (c.Run env flags s).state = s) ∧
      ((1 ≤ c.Limit ∧ c.Limit ≤ 200) →
        (∀ format arg, (c.Run env flags s).err ≠ some (.UsageError format arg)) ∧
        (c.Run env flags s).events.head? = some CmdEvent.getToken) := by
  refine ⟨?_, ?_⟩
  · intro h
    have hc : c.Limit < 1 ∨ c.Limit > 200 := h
    simp only [ChatsSearchCmd.Run, if_pos hc, and_self]
  · intro h
    have hc : ¬ (c.Limit < 1 ∨ c.Limit > 200) := by
      intro hbad
      rcases hbad with h1 | h2
      · exact absurd h.1 (not_le.mpr h1)
      · exact absurd h.2 (not_le.mpr h2)
    simp only [ChatsSearchCmd.Run, if_neg hc]
    split
    · simp
    · split
      · simp
      · split
        · simp
        · refine ⟨?_, by simp⟩
          intro format arg
          cases env.RenderChatSearch _ <;> simp

/-- Witness for C11: limit 0 and limit 201 are rejected with nothing done, and
limit 200 reaches the gateway. -/
theorem ChatsSearchCmd_limit_checked_first_witness :
    (({ Limit := 0 } : ChatsSearchCmd).Run demoEnv {} 0).err =
        some (.UsageError "invalid --limit %d (expected 1-200)" 0) ∧
      (({ Limit := 0 } : ChatsSearchCmd).Run demoEnv {} 0).events = [] ∧
      (({ Limit := 201 } : ChatsSearchCmd).Run demoEnv {} 0).err =
        some (.UsageError "invalid --limit %d (expected 1-200)" 201) ∧
      (({ Limit := 201 } : ChatsSearchCmd).Run demoEnv {} 0).events = [] ∧
      (({ Limit := 200 } : ChatsSearchCmd).Run demoEnv {} 0).err = none ∧
      (({ Limit := 200 } : ChatsSearchCmd).Run demoEnv {} 0).events.length = 3 :=
  have h0 := (ChatsSearchCmd_limit_checked_first { Limit := 0 } demoEnv {} 0).1
    (Or.inl (by decide))
  have h201 := (ChatsSearchCmd_limit_checked_first { Limit := 201 } demoEnv {} 0).1
    (Or.inr (by decide))
  ⟨h0.1, h0.2.1, h201.1, h201.2.1, rfl, rfl⟩

/-- C12: in the request built by `ChatsService.Search`, inbox
primary/low-priority/archive become Primary/LowPriority/Archive, type
direct/group/any become Single/Group/Any, scope titles/participants become
Titles/Participants, direction before/after become Before/After; and within
each field two recognised inputs with the same outbound value are equal. -/
theorem searchSdkParams_one_to_one (p q : ChatSearchParams) :
    ((p.Inbox = "primary" → (searchSdkParams p).Inbox = some .Primary) ∧
      (p.Inbox = "low-priority" → (searchSdkParams p).Inbox = some .LowPriority) ∧
      (p.Inbox = "archive" → (searchSdkParams p).Inbox = some .Archive)) ∧
    ((p.ChatType = "direct" → (searchSdkParams p).ChatType = some .Single) ∧
      (p.ChatType = "group" → (searchSdkParams p).ChatType = some .Group) ∧
      (p.ChatType = "any" → (searchSdkParams p).ChatType = some .Any)) ∧
    ((p.Scope = "titles" → (searchSdkParams p).Scope = some .Titles) ∧
      (p.Scope = "participants" → (searchSdkParams p).Scope = some .Participants)) ∧
    ((p.Direction = "before" → (searchSdkParams p).Direction = some .Before) ∧
      (p.Direction = "after" → (searchSdkParams p).Direction = some .After)) ∧
    (p.Inbox ∈ ["primary", "low-priority", "archive"] →
      q.Inbox ∈ ["primary", "low-priority", "archive"] →
      (searchSdkParams p).Inbox = (searchSdkParams q).Inbox → p.Inbox = q.Inbox) ∧
    (p.ChatType ∈ ["direct", "group", "any"] → q.ChatType ∈ ["direct", "group", "any"] →
      (searchSdkParams p).ChatType = (searchSdkParams q).ChatType →
      p.ChatType = q.ChatType) ∧
    (p.Scope ∈ ["titles", "participants"] → q.Scope ∈ ["titles", "participants"] →
      (searchSdkParams p).Scope = (searchSdkParams q).Scope → p.Scope = q.Scope) ∧
    (p.Direction ∈ ["before", "after"] → q.Direction ∈ ["before", "after"] →
      (searchSdkParams p).Direction = (searchSdkParams q).Direction →
      p.Direction = q.Direction) := by
  simp only [searchSdkParams_Inbox, searchSdkParams_ChatType, searchSdkParams_Scope,
    searchSdkParams_Direction, List.mem_cons, List.mem_singleton, List.not_mem_nil, or_false]
  refine ⟨⟨?_, ?_, ?_⟩, ⟨?_, ?_, ?_⟩, ⟨?_, ?_⟩, ⟨?_, ?_⟩, ?_, ?_, ?_, ?_⟩
  · intro h; simp [h]
  · intro h; simp [h]
  · intro h; simp [h]
  · intro h; simp [h]
  · intro h; simp [h]
  · intro h; simp [h]
  · intro h; simp [h]
  · intro h; simp [h]
  · intro h; simp [h]
  · intro h; simp [h]
  · rintro (hp | hp | hp) (hq | hq | hq) <;> simp [hp, hq]
  · rintro (hp | hp | hp) (hq | hq | hq) <;> simp [hp, hq]
  · rintro (hp | hp) (hq | hq) <;> simp [hp, hq]
  · rintro (hp | hp) (hq | hq) <;> simp [hp, hq]

/-- C13: in the request built by `ChatsService.Search`, each of inbox, type,
scope and direction is present exactly when the supplied string is one of
that field's recognised values (so an empty or unrecognised string is left
out); query and cursor are present exactly when non-empty and carry the
supplied string, unreadOnly is present exactly when true, and limit is
present exactly when > 0 and carries the supplied number. -/
theorem searchSdkParams_present_iff (p : ChatSearchParams) :
    ((searchSdkParams p).Inbox ≠ none ↔ p.Inbox ∈ ["primary", "low-priority", "archive"]) ∧
    ((searchSdkParams p).ChatType ≠ none ↔ p.ChatType ∈ ["direct", "group", "any"]) ∧
    ((searchSdkParams p).Scope ≠ none ↔ p.Scope ∈ ["titles", "participants"]) ∧
    ((searchSdkParams p).Direction ≠ none ↔ p.Direction ∈ ["before", "after"]) ∧
    ((searchSdkParams p).Query ≠ none ↔ p.Query ≠ "") ∧
    (p.Query ≠ "" → (searchSdkParams p).Query = some p.Query) ∧
    ((searchSdkParams p).Cursor ≠ none ↔ p.Cursor ≠ "") ∧
    (p.Cursor ≠ "" → (searchSdkParams p).Cursor = some p.Cursor) ∧
    ((searchSdkParams p).UnreadOnly ≠ none ↔ p.UnreadOnly = true) ∧
    ((searchSdkParams p).UnreadOnly ≠ some false) ∧
    ((searchSdkParams p).Limit ≠ none ↔ 0 < p.Limit) ∧
    (0 < p.Limit → (searchSdkParams p).Limit = some p.Limit) := by
  simp only [searchSdkParams_Inbox, searchSdkParams_ChatType, searchSdkParams_Scope,
    searchSdkParams_Direction, searchSdkParams_Query, searchSdkParams_Cursor,
    searchSdkParams_UnreadOnly, searchSdkParams_Limit, List.mem_cons, List.mem_singleton,
    List.not_mem_nil, or_false]
  refine ⟨?_, ?_, ?_, ?_, ?_, ?_, ?_, ?_, ?_, ?_, ?_, ?_⟩
  · split_ifs <;> simp_all
  · split_ifs <;> simp_all
  · split_ifs <;> simp_all
  · split_ifs <;> simp_all
  · split_ifs <;> simp_all
  · intro h; simp [h]
  · split_ifs <;> simp_all
  · intro h; simp [h]
  · split_ifs <;> simp_all
  · split_ifs <;> simp
  · split_ifs <;> simp_all
  · intro h; simp [h]

/-! ## Claims on `ChatsService.List`, `Get` and `Archive` -/

/-- C14, as amended: in `ChatsService.List` the outbound cursor is a function of
the cursor alone (itself when non-empty, otherwise absent) and the outbound
direction a function of the direction alone (Before for "before", After for
"after", otherwise absent); the gateway call is always issued, and no error
arises when it succeeds; the request carries exactly the cursor supplied
and, for a direction "before", "after" or empty, exactly that direction; any
other direction string is left out of the request. -/
theorem List_forwards_cursor_and_direction {σ ε : Type} (svc : ChatsService σ ε)
    (rfc3339 : Time → String) (p q : ChatListParams) (s : σ) :
    (listSdkParams p).Cursor = (if p.Cursor ≠ "" then some p.Cursor else none) ∧
    (listSdkParams p).Direction =
      (if p.Direction = "before" then some ChatListParamsDirection.Before
        else if p.Direction = "after" then some ChatListParamsDirection.After
        else none) ∧
    (p.Cursor = q.Cursor → (listSdkParams p).Cursor = (listSdkParams q).Cursor) ∧
    (p.Direction = q.Direction → (listSdkParams p).Direction = (listSdkParams q).Direction) ∧
    wireCursor (listSdkParams p).Cursor = p.Cursor ∧
    (p.Direction ∈ ["before", "after", ""] →
      wireDirection (listSdkParams p).Direction = p.Direction) ∧
    (p.Direction ∉ ["before", "after"] → (listSdkParams p).Direction = none) ∧
    (svc.List rfc3339 p s).calls = [.chatsList (listSdkParams p)] ∧
    (∀ page s1, svc.SDKChatsList (listSdkParams p) s = (.ok page, s1) →
      (svc.List rfc3339 p s).err = none) := by
  refine ⟨listSdkParams_Cursor p, listSdkParams_Direction p, ?_, ?_, ?_, ?_, ?_,
    List_calls svc rfc3339 p s, ?_⟩
  · intro h
    rw [listSdkParams_Cursor, listSdkParams_Cursor, h]
  · intro h
    rw [listSdkParams_Direction, listSdkParams_Direction, h]
  · rw [listSdkParams_Cursor]
    by_cases hc : p.Cursor = ""
    · simp [hc, wireCursor]
    · simp [hc, wireCursor]
  · intro h
    rw [listSdkParams_Direction]
    simp only [List.mem_cons, List.mem_singleton, List.not_mem_nil, or_false] at h
    rcases h with h | h | h <;> simp [h, wireDirection, ChatListParamsDirection.wire]
  · intro h
    rw [listSdkParams_Direction]
    simp only [List.mem_cons, List.mem_singleton, List.not_mem_nil, or_false, not_or] at h
    simp [h.1, h.2]
  · intro page s1 h
    rw [List_ok svc rfc3339 p s s1 page h]

/-- C14, as stated, fails: the direction "sideways" is not carried by the request,
which goes out with no direction at all (and with the cursor supplied). -/
theorem List_direction_counterexample :
    (listSdkParams { Cursor := "cur", Direction := "sideways" }).Direction = none ∧
      wireDirection (listSdkParams { Cursor := "cur", Direction := "sideways" }).Direction ≠
        "sideways" ∧
      (listSdkParams { Cursor := "cur", Direction := "sideways" }).Cursor = some "cur" := by
  decide

/-! ## Lemmas on the paged gateway double -/

theorem newestToken_ne_empty (k : Nat) : newestToken k ≠ "" := by
  intro h
  have hd := congrArg String.data h
  simp [newestToken] at hd

theorem oldestToken_ne_empty (k : Nat) : oldestToken k ≠ "" := by
  intro h
  have hd := congrArg String.data h
  simp [oldestToken] at hd

theorem pageIndex_after_newest (k : Nat) :
    pageIndex (some (newestToken k)) (some true) = k + 1 := by
  simp [pageIndex, newestToken]

theorem pageIndex_before_oldest (k : Nat) :
    pageIndex (some (oldestToken k)) (some false) = k - 1 := by
  simp [pageIndex, oldestToken]

theorem pagedChats_List {σ ε : Type} (pages : List (List Chat)) (rfc3339 : Time → String)
    (p : ChatListParams) (s : σ) :
    ((pagedChats pages : ChatsService σ ε).List rfc3339 p s).result =
      chatListResultOf rfc3339 (servedChats pages (pageIndex (listSdkParams p).Cursor
        ((listSdkParams p).Direction.map
          (fun d => decide (d = ChatListParamsDirection.After))))) := by
  rw [List_ok (pagedChats pages) rfc3339 p s s _ rfl]

theorem pagedChats_Search {σ ε : Type} (pages : List (List Chat))
    (p : ChatSearchParams) (s : σ) :
    ((pagedChats pages : ChatsService σ ε).Search p s).result =
      chatSearchResultOf (servedChats pages (pageIndex (searchSdkParams p).Cursor
        ((searchSdkParams p).Direction.map
          (fun d => decide (d = ChatSearchParamsDirection.After))))) := by
  rw [ChatsSearch_ok (pagedChats pages) p s s _ rfl]

theorem pagedMessages_Search {σ ε : Type} (resp : SdkSearchResponse)
    (pages : List (List MessageItem)) (rfc3339 : Time → String) (p : SearchParams) (s : σ)
    (hc : p.MessagesCursor ≠ "") :
    ((pagedMessages resp pages : Client σ ε).Search rfc3339 p s).result.Messages =
      SearchMessages.ofMessageSearchResult (servedMessages pages (pageIndex
        (some p.MessagesCursor)
        (if p.MessagesDirection = "after" then some true
          else if p.MessagesDirection = "before" then some false else none))) := by
  rw [Search_paging_ok (pagedMessages resp pages) rfc3339 p s s s resp _ rfl (Or.inl hc) rfl]
  simp [hc]

/-! ## Lemmas on the mapped fields -/

theorem chatListItemOf_LastActivity (rfc3339 : Time → String) (chat : Chat) :
    (chatListItemOf rfc3339 chat).LastActivity =
      if chat.LastActivity.IsZero = true then "" else rfc3339 chat.LastActivity := by
  cases hz : chat.LastActivity.IsZero <;> cases hp : chat.PreviewValid <;>
    simp [chatListItemOf, hz, hp]

theorem Get_ok_fields {σ ε : Type} (svc : ChatsService σ ε) (rfc3339 : Time → String)
    (chatID : String) (s s1 : σ) (chat : Chat)
    (h : svc.SDKChatsGet chatID s = (.ok chat, s1)) :
    (svc.Get rfc3339 chatID s).err = none ∧
      (svc.Get rfc3339 chatID s).calls = [.chatsGet chatID] ∧
      (svc.Get rfc3339 chatID s).result.LastActivity =
        (if chat.LastActivity.IsZero = true then "" else rfc3339 chat.LastActivity) ∧
      (svc.Get rfc3339 chatID s).result.ParticipantsReturned =
        (chat.Participants.Items.length : Int) ∧
      (svc.Get rfc3339 chatID s).result.ParticipantsTotal = chat.Participants.Total ∧
      (svc.Get rfc3339 chatID s).result.ParticipantsHasMore = chat.Participants.HasMore := by
  cases hz : chat.LastActivity.IsZero <;> simp [ChatsService.Get, h, hz]

theorem messageItemOf_fields (rfc3339 : Time → String) (msg : Message) :
    (messageItemOf rfc3339 msg).SenderName =
        (if msg.SenderName ≠ "" then msg.SenderName else msg.SenderID) ∧
      (messageItemOf rfc3339 msg).ID = msg.ID ∧
      (messageItemOf rfc3339 msg).ChatID = msg.ChatID ∧
      (messageItemOf rfc3339 msg).SenderID = msg.SenderID ∧
      (messageItemOf rfc3339 msg).Text = msg.Text := by
  cases hz : msg.Timestamp.IsZero <;> by_cases hn : msg.SenderName = "" <;>
    simp [messageItemOf, hz, hn]

/-! ## Claims on timestamps, sender names, archive and chat details -/

/-- C16: given a formatter that never returns the empty string (as RFC3339 output
never is), every item of `ChatsService.List` and the detail of
`ChatsService.Get` have LastActivity empty if and only if the chat's
lastActivity is the zero time, and otherwise it is that time formatted; a
zero time is rendered as the empty string whatever the formatter. -/
theorem LastActivity_empty_iff_zero {σ ε : Type} (svc : ChatsService σ ε)
    (rfc3339 : Time → String) (hfmt : ∀ t, rfc3339 t ≠ "")
    (params : ChatListParams) (chatID : String) (s : σ) :
    (∀ page s1, svc.SDKChatsList (listSdkParams params) s = (.ok page, s1) →
      List.Forall₂
        (fun (item : ChatListItem) (chat : Chat) =>
          (item.LastActivity = "" ↔ chat.LastActivity.IsZero = true) ∧
          (chat.LastActivity.IsZero = false →
            item.LastActivity = rfc3339 chat.LastActivity))
        (svc.List rfc3339 params s).result.Items page.Items) ∧
    (∀ chat s1, svc.SDKChatsGet chatID s = (.ok chat, s1) →
      ((svc.Get rfc3339 chatID s).result.LastActivity = "" ↔
        chat.LastActivity.IsZero = true) ∧
      (chat.LastActivity.IsZero = false →
        (svc.Get rfc3339 chatID s).result.LastActivity = rfc3339 chat.LastActivity)) := by
  refine ⟨?_, ?_⟩
  · intro page s1 h
    rw [List_ok svc rfc3339 params s s1 page h]
    simp only [chatListResultOf, List.forall₂_map_left_iff, List.forall₂_same]
    intro chat _
    rw [chatListItemOf_LastActivity]
    cases hz : chat.LastActivity.IsZero <;> simp [hfmt]
  · intro chat s1 h
    rw [(Get_ok_fields svc rfc3339 chatID s s1 chat h).2.2.1]
    cases hz : chat.LastActivity.IsZero <;> simp [hfmt]

/-- Witness for C16: a chat with a timestamp and one without, listed and fetched. -/
theorem LastActivity_empty_iff_zero_witness :
    (demoChats.List demoFormat {} 0).result.Items.map (fun item => item.LastActivity) =
        ["2024-01-01T00:00:00Z", ""] ∧
      ((demoChats.Get demoFormat "c1" 0).result.LastActivity = "" ↔
        demoChat.LastActivity.IsZero = true) ∧
      List.Forall₂
        (fun (item : ChatListItem) (chat : Chat) =>
          (item.LastActivity = "" ↔ chat.LastActivity.IsZero = true) ∧
          (chat.LastActivity.IsZero = false →
            item.LastActivity = demoFormat chat.LastActivity))
        (demoChats.List demoFormat {} 0).result.Items [demoChat, quietChat] :=
  have hthm := LastActivity_empty_iff_zero demoChats demoFormat
    (fun _ => by simp [demoFormat]) {} "c1" 0
  ⟨by decide, (hthm.2 demoChat 1 rfl).1, hthm.1 _ 1 rfl⟩

/-- C17: when `Client.Search` returns the inline bucket, every returned item
has SenderName equal to the message's senderName when that is non-empty and
to its senderId otherwise, and id, chatId, senderId and text copied from the
message, item by item in order. -/
theorem Search_inline_sender_names {σ ε : Type} (c : Client σ ε) (rfc3339 : Time → String)
    (params : SearchParams) (s s1 : σ) (resp : SdkSearchResponse)
    (h : c.SDKSearch { Query := params.Query } s = (.ok resp, s1))
    (hc : params.MessagesCursor = "") (hd : params.MessagesDirection = "")
    (hl : params.MessagesLimit ≤ 0) :
    List.Forall₂
      (fun (item : MessageItem) (msg : Message) =>
        item.SenderName = (if msg.SenderName ≠ "" then msg.SenderName else msg.SenderID) ∧
        item.ID = msg.ID ∧ item.ChatID = msg.ChatID ∧ item.SenderID = msg.SenderID ∧
        item.Text = msg.Text)
      (c.Search rfc3339 params s).result.Messages.Items resp.Results.Messages.Items := by
  rw [Search_no_paging c rfc3339 params s s1 resp h hc hd hl]
  simp only [List.forall₂_map_left_iff, List.forall₂_same]
  intro msg _
  exact messageItemOf_fields rfc3339 msg

/-- Witness for C17: "Bob" keeps his name, the nameless sender "u1" gets its id. -/
theorem Search_inline_sender_names_witness :
    (demoClient.Search demoFormat { Query := "hello" } 0).result.Messages.Items.map
        (fun item => item.SenderName) = ["Bob", "u1"] ∧
      List.Forall₂
        (fun (item : MessageItem) (msg : Message) =>
          item.SenderName = (if msg.SenderName ≠ "" then msg.SenderName else msg.SenderID) ∧
          item.ID = msg.ID ∧ item.ChatID = msg.ChatID ∧ item.SenderID = msg.SenderID ∧
          item.Text = msg.Text)
        (demoClient.Search demoFormat { Query := "hello" } 0).result.Messages.Items
        demoResponse.Results.Messages.Items :=
  ⟨by decide,
    Search_inline_sender_names demoClient demoFormat { Query := "hello" } 0 1 demoResponse
      rfl rfl rfl (by decide)⟩

/-- C18: `ChatsService.Archive` issues one gateway call carrying the chat id and
the archived flag unchanged and returns the gateway's error value as is; a
second call with the same arguments issues the identical request, and when
the gateway reports no error for either, both calls return no error. -/
theorem Archive_forwards_and_repeats {σ ε : Type} (svc : ChatsService σ ε)
    (chatID : String) (archived : Bool) (s : σ) :
    (svc.Archive chatID archived s).calls =
        [.chatsArchive chatID { Archived := some archived }] ∧
      (svc.Archive chatID archived s).err =
        (svc.SDKChatsArchive chatID { Archived := some archived } s).1 ∧
      (svc.Archive chatID archived s).state =
        (svc.SDKChatsArchive chatID { Archived := some archived } s).2 ∧
      (svc.Archive chatID archived (svc.Archive chatID archived s).state).calls =
        (svc.Archive chatID archived s).calls ∧
      (svc.Archive chatID archived (svc.Archive chatID archived s).state).err =
        (svc.SDKChatsArchive chatID { Archived := some archived }
          (svc.SDKChatsArchive chatID { Archived := some archived } s).2).1 ∧
      ((svc.SDKChatsArchive chatID { Archived := some archived } s).1 = none →
        (svc.SDKChatsArchive chatID { Archived := some archived }
          (svc.SDKChatsArchive chatID { Archived := some archived } s).2).1 = none →
        (svc.Archive chatID archived s).err = none ∧
        (svc.Archive chatID archived (svc.Archive chatID archived s).state).err = none) := by
  refine ⟨rfl, rfl, rfl, rfl, rfl, ?_⟩
  intro h1 h2
  exact ⟨h1, h2⟩

/-- Witness for C18: Archive("c1", true) twice against the archive double: the
same request both times, no error either time, and "c1" archived once. -/
theorem Archive_forwards_and_repeats_witness :
    (archiveDouble.Archive "c1" true []).err = none ∧
      (archiveDouble.Archive "c1" true (archiveDouble.Archive "c1" true []).state).err = none ∧
      (archiveDouble.Archive "c1" true (archiveDouble.Archive "c1" true []).state).calls =
        (archiveDouble.Archive "c1" true []).calls ∧
      (archiveDouble.Archive "c1" true (archiveDouble.Archive "c1" true []).state).state =
        ["c1"] :=
  have hthm := Archive_forwards_and_repeats archiveDouble "c1" true []
  ⟨(hthm.2.2.2.2.2 rfl rfl).1, (hthm.2.2.2.2.2 rfl rfl).2, hthm.2.2.2.1, by decide⟩

/-- C19: when the gateway returns a chat, `ChatsService.Get` returns no error and
a detail whose ParticipantsReturned is the number of participant items in
the response and whose ParticipantsTotal and ParticipantsHasMore are the
response's; when the gateway fails with an error, Get returns that error
with the empty ChatDetail. -/
theorem Get_participants_and_failure {σ ε : Type} (svc : ChatsService σ ε)
    (rfc3339 : Time → String) (chatID : String) (s : σ) :
    (∀ chat s1, svc.SDKChatsGet chatID s = (.ok chat, s1) →
      (svc.Get rfc3339 chatID s).err = none ∧
      (svc.Get rfc3339 chatID s).result.ParticipantsReturned =
        (chat.Participants.Items.length : Int) ∧
      (svc.Get rfc3339 chatID s).result.ParticipantsTotal = chat.Participants.Total ∧
      (svc.Get rfc3339 chatID s).result.ParticipantsHasMore = chat.Participants.HasMore) ∧
    (∀ e s1, svc.SDKChatsGet chatID s = (.error e, s1) →
      (svc.Get rfc3339 chatID s).err = some e ∧
      (svc.Get rfc3339 chatID s).result = {}) := by
  refine ⟨?_, ?_⟩
  · intro chat s1 h
    have hf := Get_ok_fields svc rfc3339 chatID s s1 chat h
    exact ⟨hf.1, hf.2.2.2.1, hf.2.2.2.2.1, hf.2.2.2.2.2⟩
  · intro e s1 h
    rw [Get_error svc rfc3339 chatID s s1 e h]
    exact ⟨rfl, rfl⟩

/-- Witness for C19: "c1" has two of five participants returned; "nope" is not
found. -/
theorem Get_participants_and_failure_witness :
    (demoChats.Get demoFormat "c1" 0).result.ParticipantsReturned = 2 ∧
      (demoChats.Get demoFormat "c1" 0).result.ParticipantsTotal = 5 ∧
      (demoChats.Get demoFormat "c1" 0).result.ParticipantsHasMore = true ∧
      (demoChats.Get demoFormat "nope" 0).err = some "chats.get: 404" ∧
      (demoChats.Get demoFormat "nope" 0).result = {} :=
  have hok := (Get_participants_and_failure demoChats demoFormat "c1" 0).1 demoChat 1 rfl
  have herr := (Get_participants_and_failure demoChats demoFormat "nope" 0).2
    "chats.get: 404" 1 rfl
  ⟨hok.2.1, hok.2.2.1, hok.2.2.2, herr.1, herr.2⟩

/-! ## Claims on pages: flags and element-wise mapping -/

theorem chatListItemOf_fields (rfc3339 : Time → String) (chat : Chat) :
    (chatListItemOf rfc3339 chat).ID = chat.ID ∧
      (chatListItemOf rfc3339 chat).Title = chat.Title ∧
      (chatListItemOf rfc3339 chat).DisplayName =
        displayNameForChat chat.ChatType chat.Title chat.Participants.Items := by
  cases hz : chat.LastActivity.IsZero <;> cases hp : chat.PreviewValid <;>
    simp [chatListItemOf, hz, hp]

theorem empty_implies_iff {α β : Type} (a : List α) (b : List β) (x y : Bool)
    (hitems : a = [] ↔ b = []) (hmore : x = y) :
    (a = [] → x = false) ↔ (b = [] → y = false) := by
  rw [hitems, hmore]

/-- C21, as amended: for every page returned by `ChatsService.List`,
`ChatsService.Search` and as Messages by `Client.Search`, Items is empty
exactly when the gateway page it was built from has no items (for Messages:
the inline bucket, or the message-search page when paging was triggered),
and HasMore is that page's hasMore unchanged; so "Items empty implies HasMore
false" holds of the result exactly when it holds of the gateway page. -/
theorem page_flags_follow_gateway {σ ε : Type} (svc : ChatsService σ ε) (c : Client σ ε)
    (rfc3339 : Time → String) (lp : ChatListParams) (sp : ChatSearchParams)
    (gp : SearchParams) (s : σ) :
    (∀ page s1, svc.SDKChatsList (listSdkParams lp) s = (.ok page, s1) →
      ((svc.List rfc3339 lp s).result.Items = [] ↔ page.Items = []) ∧
      (svc.List rfc3339 lp s).result.HasMore = page.HasMore ∧
      (((svc.List rfc3339 lp s).result.Items = [] →
          (svc.List rfc3339 lp s).result.HasMore = false) ↔
        (page.Items = [] → page.HasMore = false))) ∧
    (∀ page s1, svc.SDKChatsSearch (searchSdkParams sp) s = (.ok page, s1) →
      ((svc.Search sp s).result.Items = [] ↔ page.Items = []) ∧
      (svc.Search sp s).result.HasMore = page.HasMore ∧
      (((svc.Search sp s).result.Items = [] → (svc.Search sp s).result.HasMore = false) ↔
        (page.Items = [] → page.HasMore = false))) ∧
    (∀ resp s1, c.SDKSearch { Query := gp.Query } s = (.ok resp, s1) →
      gp.MessagesCursor = "" → gp.MessagesDirection = "" → gp.MessagesLimit ≤ 0 →
      ((c.Search rfc3339 gp s).result.Messages.Items = [] ↔
        resp.Results.Messages.Items = []) ∧
      (c.Search rfc3339 gp s).result.Messages.HasMore = resp.Results.Messages.HasMore ∧
      (((c.Search rfc3339 gp s).result.Messages.Items = [] →
          (c.Search rfc3339 gp s).result.Messages.HasMore = false) ↔
        (resp.Results.Messages.Items = [] → resp.Results.Messages.HasMore = false))) ∧
    (∀ resp s1 msgs s2, c.SDKSearch { Query := gp.Query } s = (.ok resp, s1) →
      (gp.MessagesCursor ≠ "" ∨ gp.MessagesDirection ≠ "" ∨ 0 < gp.MessagesLimit) →
      c.MessagesSearch
          { Query := gp.Query, Cursor := gp.MessagesCursor, Direction := gp.MessagesDirection,
            Limit := if gp.MessagesLimit ≤ 0 then 20 else gp.MessagesLimit } s1 =
        (.ok msgs, s2) →
      ((c.Search rfc3339 gp s).result.Messages.Items = [] ↔ msgs.Items = []) ∧
      (c.Search rfc3339 gp s).result.Messages.HasMore = msgs.HasMore ∧
      (((c.Search rfc3339 gp s).result.Messages.Items = [] →
          (c.Search rfc3339 gp s).result.Messages.HasMore = false) ↔
        (msgs.Items = [] → msgs.HasMore = false))) := by
  refine ⟨?_, ?_, ?_, ?_⟩
  · intro page s1 h
    have hitems : (svc.List rfc3339 lp s).result.Items = [] ↔ page.Items = [] := by
      rw [List_ok svc rfc3339 lp s s1 page h]
      simp [chatListResultOf]
    have hmore : (svc.List rfc3339 lp s).result.HasMore = page.HasMore := by
      rw [List_ok svc rfc3339 lp s s1 page h]
      rfl
    exact ⟨hitems, hmore, empty_implies_iff _ _ _ _ hitems hmore⟩
  · intro page s1 h
    have hitems : (svc.Search sp s).result.Items = [] ↔ page.Items = [] := by
      rw [ChatsSearch_ok svc sp s s1 page h]
      simp [chatSearchResultOf]
    have hmore : (svc.Search sp s).result.HasMore = page.HasMore := by
      rw [ChatsSearch_ok svc sp s s1 page h]
      rfl
    exact ⟨hitems, hmore, empty_implies_iff _ _ _ _ hitems hmore⟩
  · intro resp s1 h hc hd hl
    have hitems : (c.Search rfc3339 gp s).result.Messages.Items = [] ↔
        resp.Results.Messages.Items = [] := by
      rw [Search_no_paging c rfc3339 gp s s1 resp h hc hd hl]
      simp
    have hmore : (c.Search rfc3339 gp s).result.Messages.HasMore =
        resp.Results.Messages.HasMore := by
      rw [Search_no_paging c rfc3339 gp s s1 resp h hc hd hl]
    exact ⟨hitems, hmore, empty_implies_iff _ _ _ _ hitems hmore⟩
  · intro resp s1 msgs s2 h ht h2
    have hitems : (c.Search rfc3339 gp s).result.Messages.Items = [] ↔ msgs.Items = [] := by
      rw [Search_paging_ok c rfc3339 gp s s1 s2 resp msgs h ht h2]
      rfl
    have hmore : (c.Search rfc3339 gp s).result.Messages.HasMore = msgs.HasMore := by
      rw [Search_paging_ok c rfc3339 gp s s1 s2 resp msgs h ht h2]
      rfl
    exact ⟨hitems, hmore, empty_implies_iff _ _ _ _ hitems hmore⟩

/-- C21, as stated, fails: when the gateway serves a page with no items and
hasMore set, List, Search and global search (inline bucket, and paged
message search) each return Items empty with HasMore true. -/
theorem page_invariant_counterexample :
    (emptyMoreChats.List demoFormat {} 0).result.Items = [] ∧
      (emptyMoreChats.List demoFormat {} 0).result.HasMore = true ∧
      (emptyMoreChats.Search {} 0).result.Items = [] ∧
      (emptyMoreChats.Search {} 0).result.HasMore = true ∧
      (emptyMoreClient.Search demoFormat { Query := "q" } 0).result.Messages.Items = [] ∧
      (emptyMoreClient.Search demoFormat { Query := "q" } 0).result.Messages.HasMore = true ∧
      (emptyMoreClient.Search demoFormat
        { Query := "q", MessagesLimit := 5 } 0).result.Messages.Items = [] ∧
      (emptyMoreClient.Search demoFormat
        { Query := "q", MessagesLimit := 5 } 0).result.Messages.HasMore = true := by
  decide

/-- C22: `ChatsService.List` and `ChatsService.Search` map a gateway page
element-wise: the result has as many items as the page, item i carries chat
i's id and title and the DisplayName `displayNameForChat` computes from chat
i's type, title and participants, and HasMore, OldestCursor and
NewestCursor are the page's. -/
theorem List_and_Search_map_pages {σ ε : Type} (svc : ChatsService σ ε)
    (rfc3339 : Time → String) (lp : ChatListParams) (sp : ChatSearchParams) (s : σ) :
    (∀ page s1, svc.SDKChatsList (listSdkParams lp) s = (.ok page, s1) →
      (svc.List rfc3339 lp s).result.Items.length = page.Items.length ∧
      List.Forall₂
        (fun (item : ChatListItem) (chat : Chat) =>
          item.ID = chat.ID ∧ item.Title = chat.Title ∧
          item.DisplayName =
            displayNameForChat chat.ChatType chat.Title chat.Participants.Items)
        (svc.List rfc3339 lp s).result.Items page.Items ∧
      (svc.List rfc3339 lp s).result.HasMore = page.HasMore ∧
      (svc.List rfc3339 lp s).result.OldestCursor = page.OldestCursor ∧
      (svc.List rfc3339 lp s).result.NewestCursor = page.NewestCursor) ∧
    (∀ page s1, svc.SDKChatsSearch (searchSdkParams sp) s = (.ok page, s1) →
      (svc.Search sp s).result.Items.length = page.Items.length ∧
      List.Forall₂
        (fun (item : ChatSearchItem) (chat : Chat) =>
          item.ID = chat.ID ∧ item.Title = chat.Title ∧
          item.DisplayName =
            displayNameForChat chat.ChatType chat.Title chat.Participants.Items)
        (svc.Search sp s).result.Items page.Items ∧
      (svc.Search sp s).result.HasMore = page.HasMore ∧
      (svc.Search sp s).result.OldestCursor = page.OldestCursor ∧
      (svc.Search sp s).result.NewestCursor = page.NewestCursor) := by
  refine ⟨?_, ?_⟩
  · intro page s1 h
    rw [List_ok svc rfc3339 lp s s1 page h]
    refine ⟨by simp [chatListResultOf], ?_, rfl, rfl, rfl⟩
    simp only [chatListResultOf, List.forall₂_map_left_iff, List.forall₂_same]
    intro chat _
    exact chatListItemOf_fields rfc3339 chat
  · intro page s1 h
    rw [ChatsSearch_ok svc sp s s1 page h]
    refine ⟨by simp [chatSearchResultOf], ?_, rfl, rfl, rfl⟩
    simp only [chatSearchResultOf, List.forall₂_map_left_iff, List.forall₂_same]
    intro chat _
    exact ⟨rfl, rfl, rfl⟩

/-- Witness for C22: the two chats of the double, listed: "bob" for the direct
chat, no display name for the group, cursors as served. -/
theorem List_and_Search_map_pages_witness :
    (demoChats.List demoFormat {} 0).result.Items.length = 2 ∧
      (demoChats.List demoFormat {} 0).result.Items.map (fun item => item.DisplayName) =
        ["bob", ""] ∧
      (demoChats.List demoFormat {} 0).result.OldestCursor = "old" ∧
      (demoChats.Search {} 0).result.Items.length = 1 :=
  have hthm := List_and_Search_map_pages demoChats demoFormat {} {} 0
  ⟨(hthm.1 _ 1 rfl).1, by decide, (hthm.1 _ 1 rfl).2.2.2.1, (hthm.2 _ 1 rfl).1⟩

/-! ## Claim on the global search command -/

/-- C23, as amended: for every --messages-limit below 0 or above 20,
`SearchCmd.Run` issues no gateway call and, the token being found and the
client constructed, returns the UsageError "expected 1-20"; the value 0, the
flag's default, is accepted: no UsageError is returned for it and the search
call is issued. -/
theorem SearchCmd_messages_limit_checked {σ ε : Type} (c : SearchCmd) (env : CmdEnv σ ε)
    (rfc3339 : Time → String) (render : SearchResult → Option ε) (flags : RootFlags) (s : σ) :
    ((c.MessagesLimit < 0 ∨ 20 < c.MessagesLimit) →
      (∀ call, CmdEvent.gateway call ∉ (c.Run env rfc3339 render flags s).events) ∧
      (∀ token s1 client, env.GetToken s = (.ok token, s1) →
        env.NewClient token flags.BaseURL (timeoutOf flags) = .ok client →
        (c.Run env rfc3339 render flags s).err =
          some (.UsageError "invalid --messages-limit %d (expected 1-20)" c.MessagesLimit))) ∧
    (c.MessagesLimit = 0 →
      ∀ token s1 client, env.GetToken s = (.ok token, s1) →
        env.NewClient token flags.BaseURL (timeoutOf flags) = .ok client →
        (∀ format arg,
          (c.Run env rfc3339 render flags s).err ≠ some (.UsageError format arg)) ∧
        CmdEvent.gateway (.search { Query := c.Query }) ∈
          (c.Run env rfc3339 render flags s).events) := by
  refine ⟨?_, ?_⟩
  · intro h
    have hc : c.MessagesLimit < 0 ∨ c.MessagesLimit > 20 := h
    refine ⟨?_, ?_⟩
    · intro call
      simp only [SearchCmd.Run, if_pos hc]
      split
      · simp
      · split <;> simp
    · intro token s1 client htok hcli
      simp only [SearchCmd.Run, htok, hcli, if_pos hc]
  · intro h0 token s1 client htok hcli
    have hc : ¬ (c.MessagesLimit < 0 ∨ c.MessagesLimit > 20) := by
      rw [h0]
      decide
    have hcalls : GatewayCall.search { Query := c.Query } ∈
        (client.Client.Search rfc3339
          { Query := c.Query, MessagesCursor := c.MessagesCursor,
            MessagesDirection := c.MessagesDirection,
            MessagesLimit := c.MessagesLimit } s1).calls := by
      simp only [Client.Search]
      split
      · simp
      · split
        · split <;> simp
        · simp
    simp only [SearchCmd.Run, htok, hcli, if_neg hc]
    split
    · exact ⟨by simp, by simp [hcalls]⟩
    · refine ⟨?_, by simp [hcalls]⟩
      intro format arg
      cases render _ <;> simp

/-- Witness for C23: limits -1 and 21 are rejected with no gateway call. -/
theorem SearchCmd_messages_limit_checked_witness :
    (({ Query := "q", MessagesLimit := 21 } : SearchCmd).Run demoEnv demoFormat
        (fun _ => none) {} 0).err =
        some (.UsageError "invalid --messages-limit %d (expected 1-20)" 21) ∧
      (({ Query := "q", MessagesLimit := -1 } : SearchCmd).Run demoEnv demoFormat
        (fun _ => none) {} 0).err =
        some (.UsageError "invalid --messages-limit %d (expected 1-20)" (-1)) ∧
      (({ Query := "q", MessagesLimit := 21 } : SearchCmd).Run demoEnv demoFormat
        (fun _ => none) {} 0).events = [.getToken, .newClient "token" "http://localhost:23373"
          30000000000] :=
  ⟨((SearchCmd_messages_limit_checked { Query := "q", MessagesLimit := 21 } demoEnv demoFormat
      (fun _ => none) {} 0).1 (Or.inr (by decide))).2 "token" 1
      { Client := demoClient, Chats := demoChats } rfl rfl,
    ((SearchCmd_messages_limit_checked { Query := "q", MessagesLimit := -1 } demoEnv demoFormat
      (fun _ => none) {} 0).1 (Or.inl (by decide))).2 "token" 1
      { Client := demoClient, Chats := demoChats } rfl rfl,
    by decide⟩

/-- C23, as stated, fails: the value 0 lies outside [1,20], yet the command
returns no error and issues the search call; and with 21, when the token
lookup fails, the error returned is the lookup's, not a UsageError. -/
theorem SearchCmd_messages_limit_counterexample :
    (({ Query := "q", MessagesLimit := 0 } : SearchCmd).Run demoEnv demoFormat
        (fun _ => none) {} 0).err = none ∧
      CmdEvent.gateway (.search { Query := "q" }) ∈
        (({ Query := "q", MessagesLimit := 0 } : SearchCmd).Run demoEnv demoFormat
          (fun _ => none) {} 0).events ∧
      (({ Query := "q", MessagesLimit := 21 } : SearchCmd).Run noTokenEnv demoFormat
        (fun _ => none) {} 0).err = some (.collaborator "no token") := by
  decide

/-! ## Claims on what `displayNameForChat` ignores and on a failed combined call -/

theorem displayNameLoop_filter_non_self (ps : List User) :
    displayNameLoop (ps.filter (fun p => !p.IsSelf)) = displayNameLoop ps := by
  induction ps with
  | nil => rfl
  | cons p rest ih =>
    cases hself : p.IsSelf with
    | true => simp [List.filter, hself, displayNameLoop, ih]
    | false => simp [List.filter, hself, displayNameLoop, ih]

theorem displayNameLoop_source (ps : List User) (h : displayNameLoop ps ≠ "") :
    ∃ p ∈ ps, p.IsSelf = false ∧
      (displayNameLoop ps = p.FullName ∨ displayNameLoop ps = p.Username ∨
        displayNameLoop ps = p.ID) := by
  induction ps with
  | nil => exact absurd rfl h
  | cons p rest ih =>
    by_cases hnamed : isNamedNonSelf p = true
    · have hvalue := displayNameLoop_named p rest hnamed
      have hself : p.IsSelf = false := by
        simp only [isNamedNonSelf, Bool.and_eq_true, Bool.not_eq_eq_eq_not, Bool.not_true]
          at hnamed
        exact hnamed.1
      refine ⟨p, List.mem_cons_self p rest, hself, ?_⟩
      rw [hvalue]
      unfold firstNonEmptyName
      split_ifs
      · exact Or.inl rfl
      · exact Or.inr (Or.inl rfl)
      · exact Or.inr (Or.inr rfl)
      · rw [hvalue] at h
        unfold firstNonEmptyName at h
        simp_all
    · have hskip := displayNameLoop_skip p rest (by simpa using hnamed)
      rw [hskip] at h
      obtain ⟨q, hq, hqself, hqname⟩ := ih h
      exact ⟨q, List.mem_cons_of_mem p hq, hqself, by rw [hskip]; exact hqname⟩

/-- C24: `displayNameForChat` ignores the title and every self participant: for
every chat type, titles t1 and t2 and participant list, the result with t1
and the whole list equals the result with t2 and the list with all self
entries removed; and a non-empty result is the fullName, username or id of
some participant of the list that is not self. -/
theorem displayNameForChat_ignores_title_and_self (chatType t1 t2 : String)
    (participants : List User) :
    displayNameForChat chatType t1 participants =
        displayNameForChat chatType t2 (participants.filter (fun p => !p.IsSelf)) ∧
      (displayNameForChat chatType t1 participants ≠ "" →
        ∃ p ∈ participants, p.IsSelf = false ∧
          (displayNameForChat chatType t1 participants = p.FullName ∨
            displayNameForChat chatType t1 participants = p.Username ∨
            displayNameForChat chatType t1 participants = p.ID)) := by
  refine ⟨?_, ?_⟩
  · unfold displayNameForChat
    rw [displayNameLoop_filter_non_self]
  · unfold displayNameForChat
    by_cases hsingle : chatType = "single"
    · rw [if_neg (not_not.mpr hsingle)]
      exact displayNameLoop_source participants
    · rw [if_pos hsingle]
      intro h
      exact absurd rfl h

/-- Witness for C24: a self participant called "Me" is passed over, with one
title or another, and the result "ann" is the username of the non-self one. -/
theorem displayNameForChat_ignores_title_and_self_witness :
    displayNameForChat "single" "Title A" meThenAnn = "ann" ∧
      displayNameForChat "single" "Title A" meThenAnn =
        displayNameForChat "single" "Title B" (meThenAnn.filter (fun p => !p.IsSelf)) ∧
      ∃ p ∈ meThenAnn, p.IsSelf = false ∧
        (displayNameForChat "single" "Title A" meThenAnn = p.FullName ∨
          displayNameForChat "single" "Title A" meThenAnn = p.Username ∨
          displayNameForChat "single" "Title A" meThenAnn = p.ID) :=
  have hthm := displayNameForChat_ignores_title_and_self "single" "Title A" "Title B" meThenAnn
  ⟨by decide, hthm.1, hthm.2 (by decide)⟩

/-- C25: if the combined search call fails with error e, `Client.Search` returns
e itself with the empty SearchResult, and the combined call is the only
gateway call issued: no message-search call, whatever the message-pagination
controls. -/
theorem Search_step1_failure_returns_error {σ ε : Type} (c : Client σ ε)
    (rfc3339 : Time → String) (params : SearchParams) (s s1 : σ) (e : ε)
    (h : c.SDKSearch { Query := params.Query } s = (.error e, s1)) :
    (c.Search rfc3339 params s).err = some e ∧
      (c.Search rfc3339 params s).result = {} ∧
      (c.Search rfc3339 params s).calls = [.search { Query := params.Query }] ∧
      (∀ req, GatewayCall.messagesSearch req ∉ (c.Search rfc3339 params s).calls) := by
  rw [Search_step1_error c rfc3339 params s s1 e h]
  refine ⟨rfl, rfl, rfl, ?_⟩
  intro req
  simp

/-- Witness for C25: the combined call fails while cursor, direction and limit
are all supplied. -/
theorem Search_step1_failure_returns_error_witness :
    (failingSearchClient.Search demoFormat
        { Query := "q", MessagesCursor := "cur", MessagesDirection := "before",
          MessagesLimit := 15 } 0).err = some "search: 503" ∧
      (failingSearchClient.Search demoFormat
        { Query := "q", MessagesCursor := "cur", MessagesDirection := "before",
          MessagesLimit := 15 } 0).result = {} ∧
      (failingSearchClient.Search demoFormat
        { Query := "q", MessagesCursor := "cur", MessagesDirection := "before",
          MessagesLimit := 15 } 0).calls = [.search { Query := "q" }] :=
  have hthm := Search_step1_failure_returns_error failingSearchClient demoFormat
    { Query := "q", MessagesCursor := "cur", MessagesDirection := "before",
      MessagesLimit := 15 } 0 1 "search: 503" rfl
  ⟨hthm.1, hthm.2.1, hthm.2.2.1⟩

/-! ## Claim on pagination -/

theorem chatListResultOf_ids (rfc3339 : Time → String) (page : SdkChatPage) :
    (chatListResultOf rfc3339 page).Items.map (fun item => item.ID) =
      page.Items.map (fun chat => chat.ID) := by
  simp only [chatListResultOf, List.map_map]
  apply List.map_congr_left
  intro chat _
  exact (chatListItemOf_fields rfc3339 chat).1

theorem chatSearchResultOf_ids (page : SdkChatPage) :
    (chatSearchResultOf page).Items.map (fun item => item.ID) =
      page.Items.map (fun chat => chat.ID) := by
  simp only [chatSearchResultOf, List.map_map]
  apply List.map_congr_left
  intro chat _
  rfl

/-- C15: against the gateway double serving a fixed sequence of pages, for each
of chat list, chat search and the message search of global search: when a
call returned page N, re-querying with direction after and the NewestCursor
of that result yields page N+1, and, for N > 0, re-querying with direction
before and its OldestCursor yields page N-1. The page returned is pinned by
its content: the ids of the chats of that page (for messages: the items of
that page) and the two cursors of that page. -/
theorem pagination_round_trip {σ ε : Type} (rfc3339 : Time → String)
    (chatPages : List (List Chat)) (messagePages : List (List MessageItem))
    (resp : SdkSearchResponse) (N : Nat) (s : σ)
    (lp : ChatListParams) (sp : ChatSearchParams) (gp : SearchParams)
    (hlist : ((pagedChats chatPages : ChatsService σ ε).List rfc3339 lp s).result =
      chatListResultOf rfc3339 (servedChats chatPages N))
    (hsearch : ((pagedChats chatPages : ChatsService σ ε).Search sp s).result =
      chatSearchResultOf (servedChats chatPages N))
    (hmsgs : ((pagedMessages resp messagePages : Client σ ε).Search rfc3339 gp s).result.Messages =
      expectedMessages messagePages N) :
    (((pagedChats chatPages : ChatsService σ ε).List rfc3339
          { lp with
            Cursor :=
              ((pagedChats chatPages : ChatsService σ ε).List rfc3339 lp s).result.NewestCursor
            Direction := "after" } s).result =
        chatListResultOf rfc3339 (servedChats chatPages (N + 1)) ∧
      ((pagedChats chatPages : ChatsService σ ε).List rfc3339
          { lp with
            Cursor :=
              ((pagedChats chatPages : ChatsService σ ε).List rfc3339 lp s).result.NewestCursor
            Direction := "after" } s).result.Items.map (fun item => item.ID) =
        (chatPages.getD (N + 1) []).map (fun chat => chat.ID) ∧
      ((pagedChats chatPages : ChatsService σ ε).List rfc3339
          { lp with
            Cursor :=
              ((pagedChats chatPages : ChatsService σ ε).List rfc3339 lp s).result.NewestCursor
            Direction := "after" } s).result.OldestCursor = oldestToken (N + 1) ∧
      ((pagedChats chatPages : ChatsService σ ε).List rfc3339
          { lp with
            Cursor :=
              ((pagedChats chatPages : ChatsService σ ε).List rfc3339 lp s).result.NewestCursor
            Direction := "after" } s).result.NewestCursor = newestToken (N + 1)) ∧
    (0 < N →
      ((pagedChats chatPages : ChatsService σ ε).List rfc3339
          { lp with
            Cursor :=
              ((pagedChats chatPages : ChatsService σ ε).List rfc3339 lp s).result.OldestCursor
            Direction := "before" } s).result =
        chatListResultOf rfc3339 (servedChats chatPages (N - 1)) ∧
      ((pagedChats chatPages : ChatsService σ ε).List rfc3339
          { lp with
            Cursor :=
              ((pagedChats chatPages : ChatsService σ ε).List rfc3339 lp s).result.OldestCursor
            Direction := "before" } s).result.Items.map (fun item => item.ID) =
        (chatPages.getD (N - 1) []).map (fun chat => chat.ID) ∧
      ((pagedChats chatPages : ChatsService σ ε).List rfc3339
          { lp with
            Cursor :=
              ((pagedChats chatPages : ChatsService σ ε).List rfc3339 lp s).result.OldestCursor
            Direction := "before" } s).result.OldestCursor = oldestToken (N - 1) ∧
      ((pagedChats chatPages : ChatsService σ ε).List rfc3339
          { lp with
            Cursor :=
              ((pagedChats chatPages : ChatsService σ ε).List rfc3339 lp s).result.OldestCursor
            Direction := "before" } s).result.NewestCursor = newestToken (N - 1)) ∧
    (((pagedChats chatPages : ChatsService σ ε).Search
          { sp with
            Cursor := ((pagedChats chatPages : ChatsService σ ε).Search sp s).result.NewestCursor
            Direction := "after" } s).result =
        chatSearchResultOf (servedChats chatPages (N + 1)) ∧
      ((pagedChats chatPages : ChatsService σ ε).Search
          { sp with
            Cursor := ((pagedChats chatPages : ChatsService σ ε).Search sp s).result.NewestCursor
            Direction := "after" } s).result.Items.map (fun item => item.ID) =
        (chatPages.getD (N + 1) []).map (fun chat => chat.ID) ∧
      ((pagedChats chatPages : ChatsService σ ε).Search
          { sp with
            Cursor := ((pagedChats chatPages : ChatsService σ ε).Search sp s).result.NewestCursor
            Direction := "after" } s).result.OldestCursor = oldestToken (N + 1) ∧
      ((pagedChats chatPages : ChatsService σ ε).Search
          { sp with
            Cursor := ((pagedChats chatPages : ChatsService σ ε).Search sp s).result.NewestCursor
            Direction := "after" } s).result.NewestCursor = newestToken (N + 1)) ∧
    (0 < N →
      ((pagedChats chatPages : ChatsService σ ε).Search
          { sp with
            Cursor := ((pagedChats chatPages : ChatsService σ ε).Search sp s).result.OldestCursor
            Direction := "before" } s).result =
        chatSearchResultOf (servedChats chatPages (N - 1)) ∧
      ((pagedChats chatPages : ChatsService σ ε).Search
          { sp with
            Cursor := ((pagedChats chatPages : ChatsService σ ε).Search sp s).result.OldestCursor
            Direction := "before" } s).result.Items.map (fun item => item.ID) =
        (chatPages.getD (N - 1) []).map (fun chat => chat.ID) ∧
      ((pagedChats chatPages : ChatsService σ ε).Search
          { sp with
            Cursor := ((pagedChats chatPages : ChatsService σ ε).Search sp s).result.OldestCursor
            Direction := "before" } s).result.OldestCursor = oldestToken (N - 1) ∧
      ((pagedChats chatPages : ChatsService σ ε).Search
          { sp with
            Cursor := ((pagedChats chatPages : ChatsService σ ε).Search sp s).result.OldestCursor
            Direction := "before" } s).result.NewestCursor = newestToken (N - 1)) ∧
    ((pagedMessages resp messagePages : Client σ ε).Search rfc3339
        { gp with
          MessagesCursor :=
            ((pagedMessages resp messagePages : Client σ ε).Search rfc3339 gp
              s).result.Messages.NewestCursor
          MessagesDirection := "after" } s).result.Messages =
      { Items := messagePages.getD (N + 1) []
        HasMore := decide (N + 1 + 1 < messagePages.length)
        OldestCursor := oldestToken (N + 1)
        NewestCursor := newestToken (N + 1) } ∧
    (0 < N →
      ((pagedMessages resp messagePages : Client σ ε).Search rfc3339
          { gp with
            MessagesCursor :=
              ((pagedMessages resp messagePages : Client σ ε).Search rfc3339 gp
                s).result.Messages.OldestCursor
            MessagesDirection := "before" } s).result.Messages =
        { Items := messagePages.getD (N - 1) []
          HasMore := decide (N - 1 + 1 < messagePages.length)
          OldestCursor := oldestToken (N - 1)
          NewestCursor := newestToken (N - 1) }) := by
  have hln : ((pagedChats chatPages : ChatsService σ ε).List rfc3339 lp s).result.NewestCursor =
      newestToken N := by rw [hlist]; rfl
  have hlo : ((pagedChats chatPages : ChatsService σ ε).List rfc3339 lp s).result.OldestCursor =
      oldestToken N := by rw [hlist]; rfl
  have hsn : ((pagedChats chatPages : ChatsService σ ε).Search sp s).result.NewestCursor =
      newestToken N := by rw [hsearch]; rfl
  have hso : ((pagedChats chatPages : ChatsService σ ε).Search sp s).result.OldestCursor =
      oldestToken N := by rw [hsearch]; rfl
  have hmn : ((pagedMessages resp messagePages : Client σ ε).Search rfc3339 gp
      s).result.Messages.NewestCursor = newestToken N := by rw [hmsgs]; rfl
  have hmo : ((pagedMessages resp messagePages : Client σ ε).Search rfc3339 gp
      s).result.Messages.OldestCursor = oldestToken N := by rw [hmsgs]; rfl
  rw [hln, hlo, hsn, hso, hmn, hmo]
  have hla : ((pagedChats chatPages : ChatsService σ ε).List rfc3339
      { lp with Cursor := newestToken N, Direction := "after" } s).result =
      chatListResultOf rfc3339 (servedChats chatPages (N + 1)) := by
    rw [pagedChats_List, listSdkParams_Cursor, listSdkParams_Direction]
    simp [newestToken_ne_empty, pageIndex_after_newest]
  have hlb : ((pagedChats chatPages : ChatsService σ ε).List rfc3339
      { lp with Cursor := oldestToken N, Direction := "before" } s).result =
      chatListResultOf rfc3339 (servedChats chatPages (N - 1)) := by
    rw [pagedChats_List, listSdkParams_Cursor, listSdkParams_Direction]
    simp [oldestToken_ne_empty, pageIndex_before_oldest]
  have hsa : ((pagedChats chatPages : ChatsService σ ε).Search
      { sp with Cursor := newestToken N, Direction := "after" } s).result =
      chatSearchResultOf (servedChats chatPages (N + 1)) := by
    rw [pagedChats_Search, searchSdkParams_Cursor, searchSdkParams_Direction]
    simp [newestToken_ne_empty, pageIndex_after_newest]
  have hsb : ((pagedChats chatPages : ChatsService σ ε).Search
      { sp with Cursor := oldestToken N, Direction := "before" } s).result =
      chatSearchResultOf (servedChats chatPages (N - 1)) := by
    rw [pagedChats_Search, searchSdkParams_Cursor, searchSdkParams_Direction]
    simp [oldestToken_ne_empty, pageIndex_before_oldest]
  refine ⟨⟨hla, ?_, ?_, ?_⟩, fun _ => ⟨hlb, ?_, ?_, ?_⟩, ⟨hsa, ?_, ?_, ?_⟩,
    fun _ => ⟨hsb, ?_, ?_, ?_⟩, ?_, fun _ => ?_⟩
  · rw [hla, chatListResultOf_ids]; rfl
  · rw [hla]; rfl
  · rw [hla]; rfl
  · rw [hlb, chatListResultOf_ids]; rfl
  · rw [hlb]; rfl
  · rw [hlb]; rfl
  · rw [hsa, chatSearchResultOf_ids]; rfl
  · rw [hsa]; rfl
  · rw [hsa]; rfl
  · rw [hsb, chatSearchResultOf_ids]; rfl
  · rw [hsb]; rfl
  · rw [hsb]; rfl
  · rw [pagedMessages_Search resp messagePages rfc3339 _ s (newestToken_ne_empty N)]
    simp [pageIndex_after_newest, SearchMessages.ofMessageSearchResult, servedMessages]
  · rw [pagedMessages_Search resp messagePages rfc3339 _ s (oldestToken_ne_empty N)]
    simp [pageIndex_before_oldest, SearchMessages.ofMessageSearchResult, servedMessages]

/-- Witness for C15: from page 1 of three, after-newest gives page 2 ("c3",
"m3") and before-oldest gives page 0 ("c1", "m1"), for chat list, chat
search and message search. -/
theorem pagination_round_trip_witness :
    ((pagedChats threeChatPages : ChatsService Unit String).List demoFormat
        { pageOneList with
          Cursor := ((pagedChats threeChatPages : ChatsService Unit String).List demoFormat
            pageOneList ()).result.NewestCursor
          Direction := "after" } ()).result.Items.map (fun item => item.ID) = ["c3"] ∧
    ((pagedChats threeChatPages : ChatsService Unit String).Search
        { pageOneSearch with
          Cursor := ((pagedChats threeChatPages : ChatsService Unit String).Search
            pageOneSearch ()).result.OldestCursor
          Direction := "before" } ()).result.Items.map (fun item => item.ID) = ["c1"] ∧
    ((pagedMessages demoResponse threeMessagePages : Client Unit String).Search demoFormat
        { pageOneMessages with
          MessagesCursor :=
            ((pagedMessages demoResponse threeMessagePages : Client Unit String).Search demoFormat
              pageOneMessages ()).result.Messages.NewestCursor
          MessagesDirection := "after" } ()).result.Messages =
      { Items := [{ ID := "m3" }], HasMore := false,
        OldestCursor := oldestToken 2, NewestCursor := newestToken 2 } ∧
    ((pagedMessages demoResponse threeMessagePages : Client Unit String).Search demoFormat
        { pageOneMessages with
          MessagesCursor :=
            ((pagedMessages demoResponse threeMessagePages : Client Unit String).Search demoFormat
              pageOneMessages ()).result.Messages.OldestCursor
          MessagesDirection := "before" } ()).result.Messages =
      { Items := [{ ID := "m1" }], HasMore := true,
        OldestCursor := oldestToken 0, NewestCursor := newestToken 0 } :=
  have hthm := pagination_round_trip demoFormat threeChatPages threeMessagePages demoResponse 1
    () pageOneList pageOneSearch pageOneMessages (by decide) (by decide) (by decide)
  ⟨hthm.1.2.1, (hthm.2.2.2.1 (by decide)).2.1, hthm.2.2.2.2.1, hthm.2.2.2.2.2 (by decide)⟩

end Roadrunner
